import Mathlib

/-!
Shallow embedding of the negotiation core of
`quickads-youtube-creator-search-engine` (files `auto_negotiator.py`,
`email_service.py`, `database.py`), together with proofs about its
claimed properties.

Modelling conventions:
* Python floats holding dollar amounts and timestamps are modelled as exact
  rationals (`ℚ`); timestamps are rationals counting seconds.
* `dict.get(k)` / nullable columns are modelled with `Option`.
* Python truthiness of an optional number (`if creator_ask:`) is
  "present and nonzero"; of an optional bool, `Option.getD false`;
  of a string, "nonempty".
* Python's builtin `round` (round half to even) is `pyRound` below.
-/

namespace AutoNegotiator

/-- Python's builtin `round` on a rational: nearest integer, ties to even. -/
def pyRound (q : ℚ) : ℤ :=
  if q - ⌊q⌋ < 1/2 then ⌊q⌋
  else if 1/2 < q - ⌊q⌋ then ⌊q⌋ + 1
  else if ⌊q⌋ % 2 = 0 then ⌊q⌋ else ⌊q⌋ + 1

/-- Model of `round(x / 50) * 50` as it appears in `calculate_counter_offer`. -/
def roundTo50 (q : ℚ) : ℚ := (pyRound (q / 50) : ℚ) * 50

/-- The four values of the `action` field of `calculate_counter_offer`. -/
inductive Action where
  | accept | counter | final_offer | decline
deriving Repr, DecidableEq

/-- The `{offer, action, message}` dict returned by `calculate_counter_offer`
(the `message` string is cosmetic and not modelled). -/
structure CounterResult where
  offer : ℚ
  action : Action
deriving Repr, DecidableEq

/-- The `offer_steps` list of `calculate_counter_offer`. -/
def offer_steps (budget_min max_offer : ℚ) : List ℚ :=
  [budget_min * 0.85, budget_min, budget_min * 1.15, budget_min * 1.30,
   max_offer * 0.90, max_offer]

/-- Model of `offer_steps[min(negotiation_round, len(offer_steps) - 1)]`. -/
def base_offer_at (budget_min max_offer : ℚ) (negotiation_round : ℕ) : ℚ :=
  (offer_steps budget_min max_offer).getD
    (min negotiation_round ((offer_steps budget_min max_offer).length - 1)) 0

/-- The fall-through tail of `calculate_counter_offer` (no specific creator
ask): advance to the baseline offer clamped to `max_offer`, round to \$50,
and switch to `final_offer` once the ceiling is reached. -/
def counter_no_ask (base_offer max_offer : ℚ) : CounterResult :=
  if max_offer ≤ roundTo50 (min base_offer max_offer) then
    ⟨max_offer, .final_offer⟩
  else ⟨roundTo50 (min base_offer max_offer), .counter⟩

/-- Model of `calculate_counter_offer(current_offer, creator_ask, budget_min, max_offer,
negotiation_round)` from `auto_negotiator.py`.  `current_offer` is a parameter
of the source function but is never read by its body; it is kept for fidelity.
`if creator_ask:` in Python is false for `None` and for `0`. -/
def calculate_counter_offer (current_offer : ℚ) (creator_ask : Option ℚ)
    (budget_min max_offer : ℚ) (negotiation_round : ℕ) : CounterResult :=
  let _ := current_offer
  let base_offer := base_offer_at budget_min max_offer negotiation_round
  match creator_ask with
  | none => counter_no_ask base_offer max_offer
  | some ask =>
    if ask = 0 then counter_no_ask base_offer max_offer
    else if ask ≤ max_offer then
      if ask ≤ base_offer then ⟨ask, .accept⟩
      else if ask ≤ max_offer * 0.95 then
        ⟨roundTo50 (min ((base_offer + ask) / 2) max_offer), .counter⟩
      else ⟨ask, .accept⟩
    else
      if ask ≤ max_offer * 1.3 then ⟨max_offer, .final_offer⟩
      else ⟨max_offer, .decline⟩

/-! ### Classifier adapter (`analyze_reply`) -/

/-- The analysis dict flowing out of `analyze_reply` and into `process_reply`.
Each field models `dict.get(key)`: `none` when the key is absent. -/
structure Analysis where
  accepted : Option Bool := none
  rejected : Option Bool := none
  counter_offer : Option Bool := none
  requested_amount : Option ℚ := none
  sentiment : Option String := none
  needs_negotiation : Option Bool := none
deriving Repr, DecidableEq

/-- Truthiness of `analysis.get('key')` for an optional bool. -/
def optTruthy (o : Option Bool) : Bool := o.getD false

/-- The fallback dict `{"needs_negotiation": True}` returned by
`analyze_reply` on every failure path. -/
def default_analysis : Analysis := { needs_negotiation := some true }

/-- Outcome of the call to the classifier oracle inside `analyze_reply`:
`get_client()` returned `None`, the API call raised, or it returned text. -/
inductive OracleOutcome where
  | noClient
  | raisesExn
  | responds (text : String)

/-- Model of `re.search(r'\x7b[\s\S]*\x7d', text)` in `analyze_reply`: the (greedy,
leftmost) match runs from the first open brace to the last close brace of the
string, provided that close brace comes after the open brace. -/
def find_json_match (s : String) : Option String :=
  let cs := s.toList
  let i := (cs.takeWhile (fun c => c ≠ '\x7b')).length
  let k := (cs.reverse.takeWhile (fun c => c ≠ '\x7d')).length
  if i < cs.length ∧ k < cs.length ∧ i < cs.length - 1 - k then
    some (String.mk ((cs.drop i).take (cs.length - 1 - k - i + 1)))
  else none

/-- Model of `analyze_reply(reply_text, campaign, current_offer)` from
`auto_negotiator.py`, with the oracle call and `json.loads` abstracted:
`outcome` is what the oracle interaction produced and `loads` models
`json.loads` (`none` = raised, caught by the function's outer `except`).
The prompt text does not influence control flow and is not modelled. -/
def analyze_reply (loads : String → Option Analysis) :
    OracleOutcome → Analysis
  | .noClient => default_analysis
  | .raisesExn => default_analysis
  | .responds text =>
    match find_json_match text with
    | none => default_analysis
    | some j =>
      match loads j with
      | some a => a
      | none => default_analysis

/-! ### Data model (`database.py` tables, restricted to the columns the
negotiation core reads or writes) -/

/-- A `campaigns` row (budget fields only). -/
structure Campaign where
  id : ℕ
  budget_min : ℚ
  max_offer : ℚ
deriving Repr, DecidableEq

/-- An `outreach_emails` row. -/
structure Outreach where
  id : ℕ
  campaign_id : ℕ
  recipient_email : String
  subject : String
  status : String
  negotiation_stage : String
  current_offer : ℚ
  negotiation_rounds : ℕ
  followup_count : ℕ
  last_followup_at : Option ℚ
  last_inbound_at : Option ℚ
  reply_content : Option String
  ai_response : Option String
deriving Repr, DecidableEq

/-- An `email_threads` row. -/
structure ThreadEntry where
  outreach_id : ℕ
  direction : String
  subject : String
  body : String
  sent_at : ℚ
deriving Repr, DecidableEq

/-- A `processed_emails` row (`message_id` is UNIQUE in the schema). -/
structure ProcessedEmail where
  message_id : String
  from_email : String
  subject : String
  body_hash : String
deriving Repr, DecidableEq

/-- An `email_accounts` row (the columns `send_email` and
`get_available_account` read). -/
structure EmailAccount where
  id : ℕ
  email : String
  display_name : Option String
  is_active : Bool
  emails_sent_today : ℕ
  daily_limit : ℕ
deriving Repr, DecidableEq

/-- A `mailing_list` row (the columns `process_reply` touches). -/
structure Contact where
  id : ℕ
  campaign_id : Option ℕ
  outreach_id : Option ℕ
  status : String
deriving Repr, DecidableEq

/-- The persistent store. -/
structure DB where
  campaigns : List Campaign
  outreach_emails : List Outreach
  email_threads : List ThreadEntry
  processed_emails : List ProcessedEmail
  email_accounts : List EmailAccount
  mailing_list : List Contact
deriving Repr, DecidableEq

/-- Model of `db.get_campaign(campaign_id)`. -/
def get_campaign (db : DB) (campaign_id : ℕ) : Option Campaign :=
  db.campaigns.find? (fun c => c.id = campaign_id)

/-- Model of `db.is_email_processed(message_id, body_hash)`: Python's
`if message_id:` / `if body_hash:` are false for `None` and `""`. -/
def is_email_processed (db : DB) (message_id body_hash : Option String) :
    Bool :=
  (match message_id with
   | some m => m ≠ "" && db.processed_emails.any (fun p => p.message_id = m)
   | none => false) ||
  (match body_hash with
   | some h => h ≠ "" && db.processed_emails.any (fun p => p.body_hash = h)
   | none => false)

/-- Model of `db.mark_email_processed(...)`: an `INSERT OR IGNORE` against the UNIQUE
`message_id` column. -/
def mark_email_processed (db : DB) (message_id from_email subject body_hash :
    String) : DB :=
  if db.processed_emails.any (fun p => p.message_id = message_id) then db
  else { db with processed_emails :=
          db.processed_emails ++ [⟨message_id, from_email, subject, body_hash⟩] }

/-- Model of `db.add_email_thread(outreach_id, direction, subject, body)`; the row's
`sent_at` defaults to the current time. -/
def add_email_thread (db : DB) (now : ℚ) (outreach_id : ℕ)
    (direction subject body : String) : DB :=
  { db with email_threads :=
      db.email_threads ++ [⟨outreach_id, direction, subject, body, now⟩] }

/-- The keyword arguments of one `db.update_outreach(id, **kwargs)` call:
`none` = column not mentioned. -/
structure OutreachUpdate where
  status : Option String := none
  negotiation_stage : Option String := none
  current_offer : Option ℚ := none
  negotiation_rounds : Option ℕ := none
  followup_count : Option ℕ := none
  last_followup_at : Option ℚ := none
  last_inbound_at : Option ℚ := none
  reply_content : Option String := none
  ai_response : Option String := none

/-- Apply an update to one row. -/
def applyUpdate (o : Outreach) (u : OutreachUpdate) : Outreach :=
  { o with
    status := u.status.getD o.status
    negotiation_stage := u.negotiation_stage.getD o.negotiation_stage
    current_offer := u.current_offer.getD o.current_offer
    negotiation_rounds := u.negotiation_rounds.getD o.negotiation_rounds
    followup_count := u.followup_count.getD o.followup_count
    last_followup_at := (u.last_followup_at.map some).getD o.last_followup_at
    last_inbound_at := (u.last_inbound_at.map some).getD o.last_inbound_at
    reply_content := (u.reply_content.map some).getD o.reply_content
    ai_response := (u.ai_response.map some).getD o.ai_response }

/-- Model of `db.update_outreach(outreach_id, **kwargs)`: `UPDATE ... WHERE id = ?`. -/
def update_outreach (db : DB) (outreach_id : ℕ) (u : OutreachUpdate) : DB :=
  { db with outreach_emails :=
      db.outreach_emails.map fun o =>
        if o.id = outreach_id then applyUpdate o u else o }

/-- Model of `db.get_mailing_list(campaign_id=...)`. -/
def get_mailing_list (db : DB) (campaign_id : ℕ) : List Contact :=
  db.mailing_list.filter (fun c => c.campaign_id = some campaign_id)

/-- Model of `db.update_mailing_list_contact(contact_id, status=...)`. -/
def update_mailing_list_contact (db : DB) (contact_id : ℕ) (status : String) :
    DB :=
  { db with mailing_list :=
      db.mailing_list.map fun c =>
        if c.id = contact_id then { c with status := status } else c }

/-- Model of `db.get_email_account(account_id)`. -/
def get_email_account (db : DB) (account_id : ℕ) : Option EmailAccount :=
  db.email_accounts.find? (fun a => a.id = account_id)

/-- Model of `db.increment_email_sent(account_id)`. -/
def increment_email_sent (db : DB) (account_id : ℕ) : DB :=
  { db with email_accounts :=
      db.email_accounts.map fun a =>
        if a.id = account_id then
          { a with emails_sent_today := a.emails_sent_today + 1 }
        else a }

/-- The maximum of a list of rationals (`MAX(sent_at)` in `get_thread_stats`),
`none` on the empty list. -/
def listMax : List ℚ → Option ℚ
  | [] => none
  | x :: xs =>
    match listMax xs with
    | none => some x
    | some m => some (max x m)

/-- The `last_outbound` field of `db.get_thread_stats(outreach_id)`. -/
def last_outbound (db : DB) (outreach_id : ℕ) : Option ℚ :=
  listMax ((db.email_threads.filter
    (fun t => t.outreach_id = outreach_id ∧ t.direction = "outbound")).map
      (fun t => t.sent_at))

/-- Model of `email_service.get_available_account()`: the first active account under its
daily limit. -/
def get_available_account (db : DB) : Option EmailAccount :=
  (db.email_accounts.filter (fun a => a.is_active)).find?
    (fun a => a.emails_sent_today < a.daily_limit)

/-! ### Side-effect traces and the outbound path -/

/-- One observable side effect of reply processing, in program order. -/
inductive Effect where
  | markProcessed (message_id : String)
  | threadAppend (outreach_id : ℕ) (direction : String)
  | outreachUpdate (outreach_id : ℕ)
  | contactUpdate (contact_id : ℕ)
  | smtpSend (to_email subject : String)
deriving Repr, DecidableEq

/-- Is this effect an SMTP send attempt? -/
def Effect.isSend : Effect → Bool
  | .smtpSend _ _ => true
  | _ => false

/-- Number of outbound SMTP send attempts in a trace. -/
def numSends (tr : List Effect) : ℕ := (tr.filter Effect.isSend).length

/-- Is this effect an append of an outbound message to the email thread? -/
def Effect.isOutboundAppend : Effect → Bool
  | .threadAppend _ d => d = "outbound"
  | _ => false

/-- Number of outbound thread appends in a trace. -/
def numOutboundAppends (tr : List Effect) : ℕ :=
  (tr.filter Effect.isOutboundAppend).length

/-- The ambient nondeterminism of one reply-processing step: the clock, the
SMTP transaction outcome, the classifier oracle interaction, the JSON
deserializer, and the randomly chosen response template. -/
structure Env where
  now : ℚ
  smtp_ok : Bool
  oracle : OracleOutcome
  loads : String → Option Analysis
  template_body : String

/-- Model of `email_service.send_email(account_id, to_email, subject, body)`: account
lookup, active check, daily-limit check, then the SMTP transaction (outcome
injected via `env.smtp_ok`; an `Effect.smtpSend` is recorded exactly when the
transaction is attempted, and the sent counter is bumped on success). -/
def send_email (db : DB) (env : Env) (account_id : ℕ)
    (to_email subject body : String) : (Bool × String) × DB × List Effect :=
  let _ := body
  match get_email_account db account_id with
  | none => ((false, "Email account not found"), db, [])
  | some account =>
    if ¬ account.is_active then
      ((false, "Email account is not active"), db, [])
    else if account.daily_limit ≤ account.emails_sent_today then
      ((false, "Daily limit reached"), db, [])
    else if env.smtp_ok then
      ((true, "Email sent successfully"), increment_email_sent db account_id,
       [.smtpSend to_email subject])
    else
      ((false, "Send error"), db, [.smtpSend to_email subject])

/-- Model of `send_varied_response(account, to_email, subject, response_type, offer)`:
the `random.choice` of a template is injected as `env.template_body`
(template choice is cosmetic and does not affect control flow); returns the
send outcome paired with the body that was sent. -/
def send_varied_response (db : DB) (env : Env) (account : EmailAccount)
    (to_email subject response_type : String) (offer : ℚ) :
    ((Bool × String) × DB × List Effect) × String :=
  let _ := response_type
  let _ := offer
  (send_email db env account.id to_email subject env.template_body,
   env.template_body)

/-! ### Python string helpers

Kernel-computable character-list models of the Python string operations the
source uses: `str.strip`, `str.lower`, `pat in s`, `str.startswith` and
`str.split`. -/

/-- Python `str.strip()` on a character list. -/
def stripChars (l : List Char) : List Char :=
  ((l.dropWhile Char.isWhitespace).reverse.dropWhile Char.isWhitespace).reverse

/-- Python `s.strip()`. -/
def pyStrip (s : String) : String := String.mk (stripChars s.toList)

/-- Python `str.lower()` on a character list. -/
def lowerChars (l : List Char) : List Char := l.map Char.toLower

/-- Python `s.lower()`. -/
def pyLower (s : String) : String := String.mk (lowerChars s.toList)

/-- Python `l.startswith(pat)` on character lists. -/
def startsWithList : List Char → List Char → Bool
  | _, [] => true
  | [], _ :: _ => false
  | c :: cs, p :: ps => c = p && startsWithList cs ps

/-- Python `pat in l` on character lists. -/
def containsList : List Char → List Char → Bool
  | [], pat => startsWithList [] pat
  | l@(_ :: rest), pat => startsWithList l pat || containsList rest pat

/-- Python `s.split(sep)`-style splitting driven by a character predicate, keeping
empty segments (as Python does for an explicit separator). -/
def splitPred (p : Char → Bool) : List Char → List (List Char)
  | [] => [[]]
  | c :: rest =>
    if p c then [] :: splitPred p rest
    else
      match splitPred p rest with
      | [] => [[c]]
      | w :: ws => (c :: w) :: ws

/-- Python `sep.join(parts)` on character lists. -/
def joinWith (sep : List Char) : List (List Char) → List Char
  | [] => []
  | [x] => x
  | x :: xs => x ++ sep ++ joinWith sep xs

/-- Python `pat in s` (substring test). -/
def containsSub (s pat : String) : Bool := containsList s.toList pat.toList

/-! ### Reply processing (`process_reply`) -/

/-- The `TERMINAL_STATES` list from `auto_negotiator.py`. -/
def TERMINAL_STATES : List String :=
  ["deal_closed", "rejected", "rejected_over_budget", "declined"]

/-- Model of `is_terminal_state(outreach)`. -/
def is_terminal_state (outreach : Outreach) : Bool :=
  TERMINAL_STATES.contains outreach.negotiation_stage

/-- Model of `get_body_hash(body)`: md5 of the normalized body.  The md5 digest is
modelled by the normalized text itself (an injective stand-in; no claim
depends on digest collisions).  Normalization is Python's
`' '.join(body.lower().split())`. -/
def get_body_hash (body : String) : String :=
  String.mk (joinWith [' ']
    ((splitPred Char.isWhitespace (lowerChars body.toList)).filter
      (fun w => w ≠ [])))

/-- The over-budget decline body built inline in `process_reply` (an f-string
over the ask, the ceiling and the sender; the exact prose is not
load-bearing). -/
def decline_body (creator_ask max_offer : ℚ) (sender : String) : String :=
  "Thanks for sharing your rates! Unfortunately $" ++ toString creator_ask ++
    " is outside our budget for this campaign (max $" ++ toString max_offer ++
    "). " ++ sender

/-- The result dict of `process_reply` (the keys the claims inspect). -/
structure PRResult where
  success : Bool
  status : Option String := none
  error : Option String := none
  final_amount : Option ℚ := none
  new_offer : Option ℚ := none
deriving Repr, DecidableEq

/-- Lines 499–527 of `process_reply`: mark processed FIRST, log the inbound
message, flag the record replied (stopping follow-ups), and update the first
matching mailing-list contact. -/
def process_reply_record (db : DB) (env : Env) (outreach : Outreach)
    (reply_body from_email message_id : String) : DB × List Effect :=
  let outreach_id := outreach.id
  let body_hash := get_body_hash reply_body
  let db1 := mark_email_processed db message_id from_email outreach.subject
    body_hash
  let db2 := add_email_thread db1 env.now outreach_id "inbound"
    ("Re: " ++ outreach.subject) reply_body
  let db3 := update_outreach db2 outreach_id
    { status := some "replied", reply_content := some reply_body,
      last_inbound_at := some env.now }
  match (get_mailing_list db3 outreach.campaign_id).find?
      (fun c => c.outreach_id = some outreach_id) with
  | none =>
    (db3, [.markProcessed message_id, .threadAppend outreach_id "inbound",
           .outreachUpdate outreach_id])
  | some c =>
    (update_mailing_list_contact db3 c.id "replied",
     [.markProcessed message_id, .threadAppend outreach_id "inbound",
      .outreachUpdate outreach_id, .contactUpdate c.id])

/-- Lines 537–676 of `process_reply`: the six response branches (rejection,
acceptance, then the counter-offer actions), executed against the store left
by `process_reply_record` once an email account has been selected. -/
def process_reply_respond (db4 : DB) (env : Env) (outreach : Outreach)
    (campaign : Campaign) (account : EmailAccount)
    (reply_body from_email : String) : DB × List Effect × PRResult :=
  let _ := reply_body
  let outreach_id := outreach.id
  let negotiation_rounds := outreach.negotiation_rounds
  let max_offer := campaign.max_offer
  let budget_min := campaign.budget_min
  let current_offer :=
    if outreach.current_offer = 0 then budget_min else outreach.current_offer
  let analysis := analyze_reply env.loads env.oracle
  if optTruthy analysis.rejected then
    let db5 := update_outreach db4 outreach_id
      { negotiation_stage := some "rejected" }
    let sr := send_varied_response db5 env account from_email
      ("Re: " ++ outreach.subject) "goodbye" 0
    let body := sr.2
    let db6 := sr.1.2.1
    let sendEffs := sr.1.2.2
    if sr.1.1.1 then
      let db7 := add_email_thread db6 env.now outreach_id "outbound"
        ("Re: " ++ outreach.subject) body
      let db8 := update_outreach db7 outreach_id { ai_response := some body }
      (db8, [.outreachUpdate outreach_id] ++ sendEffs ++
         [.threadAppend outreach_id "outbound", .outreachUpdate outreach_id],
       { success := true, status := some "rejected" })
    else
      (db6, [.outreachUpdate outreach_id] ++ sendEffs,
       { success := true, status := some "rejected" })
  else if optTruthy analysis.accepted then
    let db5 := update_outreach db4 outreach_id
      { negotiation_stage := some "deal_closed" }
    let sr := send_varied_response db5 env account from_email
      ("Re: " ++ outreach.subject ++ " - Confirmed!") "acceptance"
      current_offer
    let body := sr.2
    let db6 := sr.1.2.1
    let sendEffs := sr.1.2.2
    if sr.1.1.1 then
      let db7 := add_email_thread db6 env.now outreach_id "outbound"
        ("Re: " ++ outreach.subject ++ " - Confirmed!") body
      let db8 := update_outreach db7 outreach_id { ai_response := some body }
      (db8, [.outreachUpdate outreach_id] ++ sendEffs ++
         [.threadAppend outreach_id "outbound", .outreachUpdate outreach_id],
       { success := true, status := some "deal_closed",
         final_amount := some current_offer })
    else
      (db6, [.outreachUpdate outreach_id] ++ sendEffs,
       { success := true, status := some "deal_closed",
         final_amount := some current_offer })
  else
    let creator_ask := analysis.requested_amount
    let rounds1 := negotiation_rounds + 1
    let counter := calculate_counter_offer current_offer creator_ask
      budget_min max_offer rounds1
    let new_offer := counter.offer
    match counter.action with
    | .accept =>
      let db5 := update_outreach db4 outreach_id
        { negotiation_stage := some "deal_closed" }
      let sr := send_varied_response db5 env account from_email
        ("Re: " ++ outreach.subject ++ " - Confirmed!") "acceptance" new_offer
      let body := sr.2
      let db6 := sr.1.2.1
      let sendEffs := sr.1.2.2
      if sr.1.1.1 then
        let db7 := add_email_thread db6 env.now outreach_id "outbound"
          ("Re: " ++ outreach.subject ++ " - Confirmed!") body
        let db8 := update_outreach db7 outreach_id
          { ai_response := some body, current_offer := some new_offer,
            negotiation_rounds := some rounds1 }
        (db8, [.outreachUpdate outreach_id] ++ sendEffs ++
           [.threadAppend outreach_id "outbound", .outreachUpdate outreach_id],
         { success := true, status := some "deal_closed",
           final_amount := some new_offer })
      else
        (db6, [.outreachUpdate outreach_id] ++ sendEffs,
         { success := true, status := some "deal_closed",
           final_amount := some new_offer })
    | .decline =>
      let db5 := update_outreach db4 outreach_id
        { negotiation_stage := some "rejected_over_budget" }
      let body := decline_body (creator_ask.getD 0) max_offer
        (account.display_name.getD "Marketing Team")
      let se := send_email db5 env account.id from_email
        ("Re: " ++ outreach.subject) body
      let db6 := se.2.1
      let sendEffs := se.2.2
      if se.1.1 then
        let db7 := add_email_thread db6 env.now outreach_id "outbound"
          ("Re: " ++ outreach.subject) body
        let db8 := update_outreach db7 outreach_id { ai_response := some body }
        (db8, [.outreachUpdate outreach_id] ++ sendEffs ++
           [.threadAppend outreach_id "outbound", .outreachUpdate outreach_id],
         { success := true, status := some "declined_over_budget" })
      else
        (db6, [.outreachUpdate outreach_id] ++ sendEffs,
         { success := true, status := some "declined_over_budget" })
    | .final_offer =>
      let db5 := update_outreach db4 outreach_id
        { negotiation_stage := some "final_offer" }
      let sr := send_varied_response db5 env account from_email
        ("Re: " ++ outreach.subject) "final_offer" new_offer
      let body := sr.2
      let db6 := sr.1.2.1
      let sendEffs := sr.1.2.2
      if sr.1.1.1 then
        let db7 := add_email_thread db6 env.now outreach_id "outbound"
          ("Re: " ++ outreach.subject) body
        let db8 := update_outreach db7 outreach_id
          { ai_response := some body, current_offer := some new_offer,
            negotiation_rounds := some rounds1 }
        (db8, [.outreachUpdate outreach_id] ++ sendEffs ++
           [.threadAppend outreach_id "outbound", .outreachUpdate outreach_id],
         { success := true, status := some "final_offer_sent",
           new_offer := some new_offer })
      else
        (db6, [.outreachUpdate outreach_id] ++ sendEffs,
         { success := true, status := some "final_offer_sent",
           new_offer := some new_offer })
    | .counter =>
      let sr := send_varied_response db4 env account from_email
        ("Re: " ++ outreach.subject) "negotiation" new_offer
      let body := sr.2
      let db6 := sr.1.2.1
      let sendEffs := sr.1.2.2
      if sr.1.1.1 then
        let db7 := add_email_thread db6 env.now outreach_id "outbound"
          ("Re: " ++ outreach.subject) body
        let db8 := update_outreach db7 outreach_id
          { negotiation_stage := some "negotiating", ai_response := some body,
            current_offer := some new_offer,
            negotiation_rounds := some rounds1 }
        (db8, sendEffs ++
           [.threadAppend outreach_id "outbound", .outreachUpdate outreach_id],
         { success := true, status := some "negotiating",
           new_offer := some new_offer })
      else
        (db6, sendEffs,
         { success := true, status := some "negotiating",
           new_offer := some new_offer })

/-- Model of `process_reply(outreach, reply_body, from_email, message_id)` from
`auto_negotiator.py`: terminal guard, campaign lookup, the record step
(mark-processed first), classification and account selection, then the
response branches.  Returns the new store, the ordered side-effect trace and
the result dict. -/
def process_reply (db : DB) (env : Env) (outreach : Outreach)
    (reply_body from_email message_id : String) :
    DB × List Effect × PRResult :=
  if is_terminal_state outreach then
    let body_hash := get_body_hash reply_body
    let db' := mark_email_processed db message_id from_email outreach.subject
      body_hash
    (db', [.markProcessed message_id],
     { success := true, status := some "skipped_terminal" })
  else
    match get_campaign db outreach.campaign_id with
    | none =>
      (db, [], { success := false, error := some "Campaign not found" })
    | some campaign =>
      let rec0 := process_reply_record db env outreach reply_body from_email
        message_id
      let db4 := rec0.1
      let pre := rec0.2
      match get_available_account db4 with
      | none =>
        (db4, pre,
         { success := false, error := some "No email account available" })
      | some account =>
        let r := process_reply_respond db4 env outreach campaign account
          reply_body from_email
        (r.1, pre ++ r.2.1, r.2.2)

/-! ### Inbox reconciliation (`check_inbox_for_replies`) -/

/-- One line terminates body extraction in `extract_email_body` when it is a
quoted-reply marker, a "wrote:" attribution, a `From:`/`@` header echo, or an
"Original Message" banner. -/
def quoteBoundary (line : List Char) : Bool :=
  startsWithList (stripChars line) ">".toList ||
  containsList (lowerChars line) "wrote:".toList ||
  (containsList line "From:".toList && containsList line "@".toList) ||
  (containsList line "----".toList &&
    containsList line "Original Message".toList)

/-- The `for line in lines: if ... break; clean_lines.append(line)` loop. -/
def takeUntilBoundary : List (List Char) → List (List Char)
  | [] => []
  | l :: ls => if quoteBoundary l then [] else l :: takeUntilBoundary ls

/-- Model of `extract_email_body(msg)` applied to the already-decoded text payload:
split into lines, keep lines up to the first quoted-reply boundary, rejoin
and strip.  (MIME part selection and charset decoding are transport details
outside the model; `raw` is the decoded `text/plain` payload.) -/
def extract_email_body (raw : String) : String :=
  String.mk (stripChars
    (joinWith "\n".toList
      (takeUntilBoundary (splitPred (fun c => c = '\n') raw.toList))))

/-- Characters of `rest` before its first `'>'`; `none` when `rest` has no
`'>'`. -/
def firstUntilGt : List Char → Option (List Char)
  | [] => none
  | c :: r => if c = '>' then some [] else (firstUntilGt r).map (fun t => c :: t)

/-- The capture of `re` pattern `<(.+?)>` starting right after a `'<'`: at
least one character, lazily up to the next `'>'`. -/
def captureAfterLt (l : List Char) : Option (List Char) :=
  match l with
  | [] => none
  | c0 :: rest => (firstUntilGt rest).map (fun t => c0 :: t)

/-- Leftmost match of `re.search(r'<(.+?)>', s)` over a character list. -/
def angleCapture : List Char → Option (List Char)
  | [] => none
  | c :: rest =>
    if c = '<' then
      match captureAfterLt rest with
      | some cap => some cap
      | none => angleCapture rest
    else angleCapture rest

/-- The from-address cleanup in `find_matching_outreach`: lowercase, strip,
and pull the address out of `Name <addr>` brackets when present. -/
def clean_from_email (from_email : String) : String :=
  let s := stripChars (lowerChars from_email.toList)
  if s.contains '<' then
    match angleCapture s with
    | some cap => String.mk cap
    | none => String.mk s
  else String.mk s

/-- Model of `db.get_outreach_emails(status=...)`. -/
def get_outreach_emails (db : DB) (status : String) : List Outreach :=
  db.outreach_emails.filter (fun o => o.status = status)

/-- Model of `find_matching_outreach(from_email, subject)`: search 'sent' then
'replied' outreach for an exact case-insensitive recipient match (the
`subject` parameter is unused in the source as well). -/
def find_matching_outreach (db : DB) (from_email subject : String) :
    Option Outreach :=
  let _ := subject
  let outreach_list :=
    get_outreach_emails db "sent" ++ get_outreach_emails db "replied"
  let from_email_clean := clean_from_email from_email
  outreach_list.find? (fun o => pyLower o.recipient_email = from_email_clean)

/-- One fetched inbound message (header fields already decoded). -/
structure InboundMsg where
  message_id : String
  from_email : String
  subject : String
  raw_body : String
deriving Repr, DecidableEq

/-- What the per-message loop body of `check_inbox_for_replies` did with one
message. -/
inductive CheckOutcome where
  | skippedEmpty
  | skippedDuplicate
  | noMatch
  | skippedTerminal
  | processed (r : PRResult)
deriving Repr, DecidableEq

/-- The body of the per-message loop of `check_inbox_for_replies`: extract
the body, skip when empty/short, skip already-processed message ids (checked
on `message_id` only), match an outreach, skip terminal deals (marking the
message processed), else hand off to `process_reply`. -/
def check_message (db : DB) (env : Env) (msg : InboundMsg) :
    DB × List Effect × CheckOutcome :=
  let body := extract_email_body msg.raw_body
  if body = "" ∨ (pyStrip body).length < 5 then (db, [], .skippedEmpty)
  else
    let body_hash := get_body_hash body
    if is_email_processed db (some msg.message_id) none then
      (db, [], .skippedDuplicate)
    else
      match find_matching_outreach db msg.from_email msg.subject with
      | none => (db, [], .noMatch)
      | some outreach =>
        if is_terminal_state outreach then
          (mark_email_processed db msg.message_id msg.from_email msg.subject
             body_hash,
           [.markProcessed msg.message_id], .skippedTerminal)
        else
          let r := process_reply db env outreach body msg.from_email
            msg.message_id
          (r.1, r.2.1, .processed r.2.2)

/-! ### Follow-up scheduler -/

/-- Model of `should_send_followup(outreach)`: no follow-up once replied, once any
inbound was recorded, after two follow-ups, or without a last outbound
message; otherwise fire iff the hours since the last outbound lie in
`[2, 6]`.  Timestamps are rationals, so the source's `fromisoformat` parse
(whose `except` path also returns False) always succeeds in the model. -/
def should_send_followup (db : DB) (outreach : Outreach) (now : ℚ) : Bool :=
  if outreach.status = "replied" then false
  else if outreach.last_inbound_at.isSome then false
  else if 2 ≤ outreach.followup_count then false
  else
    match last_outbound db outreach.id with
    | none => false
    | some t =>
      decide (2 ≤ (now - t) / 3600 ∧ (now - t) / 3600 ≤ 6)

/-- The result dict of `send_followup`. -/
structure FollowupResult where
  success : Bool
  followup_number : Option ℕ := none
  error : Option String := none
deriving Repr, DecidableEq

/-- Model of `send_followup(outreach)`: pick an available account, send one soft-nudge
template (`random.choice` injected as `env.template_body`), and on success
log the outbound message and bump `followup_count` / `last_followup_at`. -/
def send_followup (db : DB) (env : Env) (outreach : Outreach) :
    DB × List Effect × FollowupResult :=
  match get_available_account db with
  | none => (db, [], { success := false, error := some "No email account" })
  | some account =>
    let followup_count := outreach.followup_count + 1
    let body := env.template_body
    let se := send_email db env account.id outreach.recipient_email
      ("Re: " ++ outreach.subject) body
    if se.1.1 then
      let db1 := add_email_thread se.2.1 env.now outreach.id "outbound"
        ("Re: " ++ outreach.subject) body
      let db2 := update_outreach db1 outreach.id
        { followup_count := some followup_count,
          last_followup_at := some env.now }
      (db2, se.2.2 ++ [.threadAppend outreach.id "outbound",
                       .outreachUpdate outreach.id],
       { success := true, followup_number := some followup_count })
    else
      (se.2.1, se.2.2, { success := false, error := some "Send failed" })

/-- The per-outreach body of the follow-up section of `run_auto_negotiator`
(which iterates over `get_pending_outreach()`): double-check terminal state,
require status `'sent'`, consult `should_send_followup`, then
`send_followup`.  The boolean is whether a follow-up was dispatched
successfully (the source's `result.get('success')` guard). -/
def run_followup_step (db : DB) (env : Env) (outreach : Outreach) :
    DB × List Effect × Bool :=
  if is_terminal_state outreach then (db, [], false)
  else if outreach.status ≠ "sent" then (db, [], false)
  else if should_send_followup db outreach env.now then
    let r := send_followup db env outreach
    (r.1, r.2.1, r.2.2.success)
  else (db, [], false)

/-! ### Concrete fixtures (used by witnesses and counterexamples) -/

/-- An active account with remaining daily quota. -/
def acctA : EmailAccount := ⟨1, "me@x.com", some "Me", true, 0, 50⟩

/-- An active account that has exhausted its daily quota. -/
def acctFull : EmailAccount := ⟨1, "me@x.com", some "Me", true, 50, 50⟩

/-- A campaign with `budget_min = 100`, `max_offer = 500`. -/
def campA : Campaign := ⟨1, 100, 500⟩

/-- A live outreach mid-negotiation. -/
def outA : Outreach :=
  ⟨1, 1, "creator@x.com", "Offer", "sent", "negotiating", 0, 0, 0, none,
   none, none, none⟩

/-- The same outreach after its deal closed (terminal stage). -/
def outClosed : Outreach := { outA with negotiation_stage := "deal_closed" }

/-- A store holding the live outreach, its campaign and a usable account. -/
def dbA : DB := ⟨[campA], [outA], [], [], [acctA], []⟩

/-- A store whose only outreach is terminal. -/
def dbClosed : DB := ⟨[campA], [outClosed], [], [], [acctA], []⟩

/-- A store whose only account is at its daily limit. -/
def dbNoCap : DB := ⟨[campA], [outA], [], [], [acctFull], []⟩

/-- An environment whose classifier judges the reply an explicit rejection;
`ok` is the SMTP outcome. -/
def envRej (ok : Bool) : Env :=
  ⟨0, ok, OracleOutcome.responds "\x7b\x7d",
   fun _ => some { rejected := some true }, "T"⟩

/-- A plain inbound reply from the fixture creator. -/
def msgA : InboundMsg :=
  ⟨"mid-a", "creator@x.com", "Re: Offer", "not interested"⟩

/-- An outreach with status `'sent'`, no reply ever, no follow-ups yet — but
a terminal `negotiation_stage`. -/
def outFU : Outreach :=
  ⟨1, 1, "creator@x.com", "Offer", "sent", "rejected", 0, 0, 0, none, none,
   none, none⟩

/-- A store holding `outFU` and one outbound thread message at time 0. -/
def dbFU : DB :=
  ⟨[campA], [outFU], [⟨1, "outbound", "Offer", "B", 0⟩], [], [acctA], []⟩

/-- The same record with a non-terminal stage. -/
def outEl : Outreach := { outFU with negotiation_stage := "initial" }

/-- A store holding `outEl` and one outbound thread message at time 0. -/
def dbEl : DB :=
  ⟨[campA], [outEl], [⟨1, "outbound", "Offer", "B", 0⟩], [], [acctA], []⟩

/-- An environment 3 hours after that outbound message. -/
def envFU : Env := ⟨10800, true, OracleOutcome.noClient, fun _ => none, "T"⟩

/-! ### Record projections (used to state the claims) -/

/-- The `negotiation_stage` of the outreach row with the given id. -/
def stage_of (db : DB) (outreach_id : ℕ) : Option String :=
  (db.outreach_emails.find? (fun r => r.id = outreach_id)).map
    (fun r => r.negotiation_stage)

/-- The `status` of the outreach row with the given id. -/
def status_of (db : DB) (outreach_id : ℕ) : Option String :=
  (db.outreach_emails.find? (fun r => r.id = outreach_id)).map
    (fun r => r.status)

/-- The `current_offer` of the outreach row with the given id. -/
def offer_of (db : DB) (outreach_id : ℕ) : Option ℚ :=
  (db.outreach_emails.find? (fun r => r.id = outreach_id)).map
    (fun r => r.current_offer)

/-- The `negotiation_rounds` of the outreach row with the given id. -/
def rounds_of (db : DB) (outreach_id : ℕ) : Option ℕ :=
  (db.outreach_emails.find? (fun r => r.id = outreach_id)).map
    (fun r => r.negotiation_rounds)

/-- The `followup_count` of the outreach row with the given id. -/
def followups_of (db : DB) (outreach_id : ℕ) : Option ℕ :=
  (db.outreach_emails.find? (fun r => r.id = outreach_id)).map
    (fun r => r.followup_count)

/-- The `last_followup_at` of the outreach row with the given id. -/
def last_followup_of (db : DB) (outreach_id : ℕ) : Option (Option ℚ) :=
  (db.outreach_emails.find? (fun r => r.id = outreach_id)).map
    (fun r => r.last_followup_at)

/-! ## Rounding lemmas -/

lemma le_pyRound (q : ℚ) : ⌊q⌋ ≤ pyRound q := by
  unfold pyRound; split_ifs <;> omega

lemma pyRound_le_add_one (q : ℚ) : pyRound q ≤ ⌊q⌋ + 1 := by
  unfold pyRound; split_ifs <;> omega

lemma pyRound_mono {x y : ℚ} (h : x ≤ y) : pyRound x ≤ pyRound y := by
  have hf : ⌊x⌋ ≤ ⌊y⌋ := Int.floor_mono h
  rcases lt_or_eq_of_le hf with hlt | heq
  · have h1 := pyRound_le_add_one x
    have h2 := le_pyRound y
    omega
  · have hq : ((⌊x⌋ : ℤ) : ℚ) = ((⌊y⌋ : ℤ) : ℚ) := by exact_mod_cast heq
    have hr : x - ⌊x⌋ ≤ y - ⌊y⌋ := by linarith
    unfold pyRound
    rw [← heq] at hr ⊢
    split_ifs <;> first | omega | linarith

lemma roundTo50_mono {x y : ℚ} (h : x ≤ y) : roundTo50 x ≤ roundTo50 y := by
  unfold roundTo50
  have h1 : pyRound (x / 50) ≤ pyRound (y / 50) :=
    pyRound_mono (by linarith)
  have h2 : ((pyRound (x / 50) : ℤ) : ℚ) ≤ ((pyRound (y / 50) : ℤ) : ℚ) := by
    exact_mod_cast h1
  linarith

lemma roundTo50_mul50 (q : ℚ) : ∃ k : ℤ, roundTo50 q = 50 * k :=
  ⟨pyRound (q / 50), by rw [roundTo50]; ring⟩

/-- Lemma: `counter_no_ask` always offers the rounded clamped baseline, re-clamped
to the ceiling. -/
lemma counter_no_ask_offer (b m : ℚ) :
    (counter_no_ask b m).offer = min (roundTo50 (min b m)) m := by
  unfold counter_no_ask
  split_ifs with h
  · simp [min_eq_right h]
  · simp [min_eq_left (le_of_not_le h)]

/-- The baseline schedule is non-decreasing in the round index as soon as
`1.30 * budget_min ≤ 0.90 * max_offer`. -/
lemma base_offer_at_mono (bm mx : ℚ) (h0 : 0 ≤ bm)
    (h1 : bm * 1.30 ≤ mx * 0.90) (r : ℕ) :
    base_offer_at bm mx r ≤ base_offer_at bm mx (r + 1) := by
  have hmx : 0 ≤ mx := by nlinarith
  rcases r with _ | _ | _ | _ | _ | n <;>
    simp [base_offer_at, offer_steps, List.getD] <;> nlinarith

/-! ## Store bookkeeping lemmas -/

@[simp] lemma mark_campaigns (db : DB) (m f s h : String) :
    (mark_email_processed db m f s h).campaigns = db.campaigns := by
  unfold mark_email_processed; split <;> rfl

@[simp] lemma mark_outreach (db : DB) (m f s h : String) :
    (mark_email_processed db m f s h).outreach_emails = db.outreach_emails := by
  unfold mark_email_processed; split <;> rfl

@[simp] lemma mark_threads (db : DB) (m f s h : String) :
    (mark_email_processed db m f s h).email_threads = db.email_threads := by
  unfold mark_email_processed; split <;> rfl

@[simp] lemma mark_accounts (db : DB) (m f s h : String) :
    (mark_email_processed db m f s h).email_accounts = db.email_accounts := by
  unfold mark_email_processed; split <;> rfl

@[simp] lemma mark_mailing (db : DB) (m f s h : String) :
    (mark_email_processed db m f s h).mailing_list = db.mailing_list := by
  unfold mark_email_processed; split <;> rfl

@[simp] lemma add_thread_campaigns (db : DB) (n : ℚ) (oid : ℕ)
    (d s b : String) :
    (add_email_thread db n oid d s b).campaigns = db.campaigns := rfl

@[simp] lemma add_thread_outreach (db : DB) (n : ℚ) (oid : ℕ)
    (d s b : String) :
    (add_email_thread db n oid d s b).outreach_emails = db.outreach_emails :=
  rfl

@[simp] lemma add_thread_processed (db : DB) (n : ℚ) (oid : ℕ)
    (d s b : String) :
    (add_email_thread db n oid d s b).processed_emails =
      db.processed_emails := rfl

@[simp] lemma add_thread_accounts (db : DB) (n : ℚ) (oid : ℕ)
    (d s b : String) :
    (add_email_thread db n oid d s b).email_accounts = db.email_accounts :=
  rfl

@[simp] lemma add_thread_mailing (db : DB) (n : ℚ) (oid : ℕ)
    (d s b : String) :
    (add_email_thread db n oid d s b).mailing_list = db.mailing_list := rfl

@[simp] lemma add_thread_threads (db : DB) (n : ℚ) (oid : ℕ)
    (d s b : String) :
    (add_email_thread db n oid d s b).email_threads =
      db.email_threads ++ [⟨oid, d, s, b, n⟩] := rfl

@[simp] lemma update_outreach_campaigns (db : DB) (oid : ℕ)
    (u : OutreachUpdate) :
    (update_outreach db oid u).campaigns = db.campaigns := rfl

@[simp] lemma update_outreach_threads (db : DB) (oid : ℕ)
    (u : OutreachUpdate) :
    (update_outreach db oid u).email_threads = db.email_threads := rfl

@[simp] lemma update_outreach_processed (db : DB) (oid : ℕ)
    (u : OutreachUpdate) :
    (update_outreach db oid u).processed_emails = db.processed_emails := rfl

@[simp] lemma update_outreach_accounts (db : DB) (oid : ℕ)
    (u : OutreachUpdate) :
    (update_outreach db oid u).email_accounts = db.email_accounts := rfl

@[simp] lemma update_outreach_mailing (db : DB) (oid : ℕ)
    (u : OutreachUpdate) :
    (update_outreach db oid u).mailing_list = db.mailing_list := rfl

@[simp] lemma update_contact_campaigns (db : DB) (cid : ℕ) (st : String) :
    (update_mailing_list_contact db cid st).campaigns = db.campaigns := rfl

@[simp] lemma update_contact_outreach (db : DB) (cid : ℕ) (st : String) :
    (update_mailing_list_contact db cid st).outreach_emails =
      db.outreach_emails := rfl

@[simp] lemma update_contact_threads (db : DB) (cid : ℕ) (st : String) :
    (update_mailing_list_contact db cid st).email_threads =
      db.email_threads := rfl

@[simp] lemma update_contact_processed (db : DB) (cid : ℕ) (st : String) :
    (update_mailing_list_contact db cid st).processed_emails =
      db.processed_emails := rfl

@[simp] lemma update_contact_accounts (db : DB) (cid : ℕ) (st : String) :
    (update_mailing_list_contact db cid st).email_accounts =
      db.email_accounts := rfl

@[simp] lemma increment_campaigns (db : DB) (aid : ℕ) :
    (increment_email_sent db aid).campaigns = db.campaigns := rfl

@[simp] lemma increment_outreach (db : DB) (aid : ℕ) :
    (increment_email_sent db aid).outreach_emails = db.outreach_emails := rfl

@[simp] lemma increment_threads (db : DB) (aid : ℕ) :
    (increment_email_sent db aid).email_threads = db.email_threads := rfl

@[simp] lemma increment_processed (db : DB) (aid : ℕ) :
    (increment_email_sent db aid).processed_emails = db.processed_emails :=
  rfl

@[simp] lemma increment_mailing (db : DB) (aid : ℕ) :
    (increment_email_sent db aid).mailing_list = db.mailing_list := rfl

lemma get_available_account_congr {db₁ db₂ : DB}
    (h : db₁.email_accounts = db₂.email_accounts) :
    get_available_account db₁ = get_available_account db₂ := by
  unfold get_available_account; rw [h]

lemma get_email_account_congr {db₁ db₂ : DB} (aid : ℕ)
    (h : db₁.email_accounts = db₂.email_accounts) :
    get_email_account db₁ aid = get_email_account db₂ aid := by
  unfold get_email_account; rw [h]

lemma is_email_processed_congr {db₁ db₂ : DB} (a b : Option String)
    (h : db₁.processed_emails = db₂.processed_emails) :
    is_email_processed db₁ a b = is_email_processed db₂ a b := by
  unfold is_email_processed; rw [h]

/-- After `mark_email_processed`, the message id is recorded (for a truthy,
i.e. nonempty, id). -/
lemma is_email_processed_mark (db : DB) (m f s h : String) (hm : m ≠ "") :
    is_email_processed (mark_email_processed db m f s h) (some m) none =
      true := by
  unfold mark_email_processed
  split
  · next hp =>
    simp only [List.any_eq_true, decide_eq_true_eq] at hp
    unfold is_email_processed
    simpa [hm] using hp
  · unfold is_email_processed
    simp [hm, List.any_append]

/-- An available account is active and under its daily limit. -/
lemma get_available_account_spec {db : DB} {a : EmailAccount}
    (h : get_available_account db = some a) :
    a.is_active = true ∧ a.emails_sent_today < a.daily_limit := by
  unfold get_available_account at h
  have h1 := List.find?_some h
  have h2 := List.mem_of_find?_eq_some h
  simp only [decide_eq_true_eq] at h1
  have h3 := List.of_mem_filter h2
  exact ⟨h3, h1⟩

lemma applyUpdate_id (o : Outreach) (u : OutreachUpdate) :
    (applyUpdate o u).id = o.id := rfl

/-- Updating a record by id rewrites the `find?` result. -/
lemma find?_update_list (l : List Outreach) (oid : ℕ) (u : OutreachUpdate)
    (o : Outreach) (h : l.find? (fun r => r.id = oid) = some o) :
    (l.map fun r => if r.id = oid then applyUpdate r u else r).find?
      (fun r => r.id = oid) = some (applyUpdate o u) := by
  induction l with
  | nil => simp at h
  | cons a t ih =>
    by_cases ha : a.id = oid
    · rw [List.find?_cons_of_pos _ (by simp [ha])] at h
      cases h
      simp only [List.map_cons, if_pos ha]
      rw [List.find?_cons_of_pos _ (by simp [applyUpdate_id, ha])]
    · rw [List.find?_cons_of_neg _ (by simp [ha])] at h
      simp only [List.map_cons, if_neg ha]
      rw [List.find?_cons_of_neg _ (by simp [ha])]
      exact ih h

lemma stage_of_update (db : DB) (oid : ℕ) (u : OutreachUpdate) (o : Outreach)
    (h : db.outreach_emails.find? (fun r => r.id = oid) = some o) :
    stage_of (update_outreach db oid u) oid =
      some (applyUpdate o u).negotiation_stage := by
  unfold stage_of update_outreach
  rw [find?_update_list _ _ _ _ h]
  rfl

/-! ## Trace lemmas -/

@[simp] lemma isSend_mark (m : String) :
    (Effect.markProcessed m).isSend = false := rfl

@[simp] lemma isSend_append (oid : ℕ) (d : String) :
    (Effect.threadAppend oid d).isSend = false := rfl

@[simp] lemma isSend_update (oid : ℕ) :
    (Effect.outreachUpdate oid).isSend = false := rfl

@[simp] lemma isSend_contact (cid : ℕ) :
    (Effect.contactUpdate cid).isSend = false := rfl

@[simp] lemma isSend_smtp (t s : String) :
    (Effect.smtpSend t s).isSend = true := rfl

@[simp] lemma isOut_mark (m : String) :
    (Effect.markProcessed m).isOutboundAppend = false := rfl

@[simp] lemma isOut_append (oid : ℕ) (d : String) :
    (Effect.threadAppend oid d).isOutboundAppend = decide (d = "outbound") :=
  rfl

@[simp] lemma isOut_update (oid : ℕ) :
    (Effect.outreachUpdate oid).isOutboundAppend = false := rfl

@[simp] lemma isOut_contact (cid : ℕ) :
    (Effect.contactUpdate cid).isOutboundAppend = false := rfl

@[simp] lemma isOut_smtp (t s : String) :
    (Effect.smtpSend t s).isOutboundAppend = false := rfl

lemma numSends_append (t₁ t₂ : List Effect) :
    numSends (t₁ ++ t₂) = numSends t₁ + numSends t₂ := by
  simp [numSends, List.filter_append]

lemma numOutboundAppends_append (t₁ t₂ : List Effect) :
    numOutboundAppends (t₁ ++ t₂) =
      numOutboundAppends t₁ + numOutboundAppends t₂ := by
  simp [numOutboundAppends, List.filter_append]

/-! ## Lemmas about the record step of `process_reply` -/

lemma record_trace_cases (db : DB) (env : Env) (o : Outreach)
    (rb f m : String) :
    (process_reply_record db env o rb f m).2 =
      [.markProcessed m, .threadAppend o.id "inbound",
       .outreachUpdate o.id] ∨
    ∃ cid, (process_reply_record db env o rb f m).2 =
      [.markProcessed m, .threadAppend o.id "inbound",
       .outreachUpdate o.id, .contactUpdate cid] := by
  simp only [process_reply_record]
  split
  · exact Or.inl rfl
  · exact Or.inr ⟨_, rfl⟩

lemma record_numSends (db : DB) (env : Env) (o : Outreach)
    (rb f m : String) :
    numSends (process_reply_record db env o rb f m).2 = 0 := by
  rcases record_trace_cases db env o rb f m with h | ⟨cid, h⟩ <;>
    simp [h, numSends]

lemma record_numOutboundAppends (db : DB) (env : Env) (o : Outreach)
    (rb f m : String) :
    numOutboundAppends (process_reply_record db env o rb f m).2 = 0 := by
  rcases record_trace_cases db env o rb f m with h | ⟨cid, h⟩ <;>
    simp [h, numOutboundAppends]

lemma record_head (db : DB) (env : Env) (o : Outreach) (rb f m : String) :
    (process_reply_record db env o rb f m).2.head? =
      some (Effect.markProcessed m) := by
  rcases record_trace_cases db env o rb f m with h | ⟨cid, h⟩ <;> simp [h]

lemma record_processed (db : DB) (env : Env) (o : Outreach)
    (rb f m : String) :
    (process_reply_record db env o rb f m).1.processed_emails =
      (mark_email_processed db m f o.subject
        (get_body_hash rb)).processed_emails := by
  simp only [process_reply_record]
  split <;> simp

lemma record_accounts (db : DB) (env : Env) (o : Outreach) (rb f m : String) :
    (process_reply_record db env o rb f m).1.email_accounts =
      db.email_accounts := by
  simp only [process_reply_record]
  split <;> simp

lemma record_threads (db : DB) (env : Env) (o : Outreach) (rb f m : String) :
    (process_reply_record db env o rb f m).1.email_threads =
      db.email_threads ++
        [⟨o.id, "inbound", "Re: " ++ o.subject, rb, env.now⟩] := by
  simp only [process_reply_record]
  split <;> simp

lemma record_outreach_emails (db : DB) (env : Env) (o : Outreach)
    (rb f m : String) :
    (process_reply_record db env o rb f m).1.outreach_emails =
      (update_outreach db o.id
        { status := some "replied", reply_content := some rb,
          last_inbound_at := some env.now }).outreach_emails := by
  simp only [process_reply_record]
  split <;> simp [update_outreach]

/-! ## Lemmas about the outbound path -/

@[simp] lemma send_email_processed (db : DB) (env : Env) (aid : ℕ)
    (te subj body : String) :
    (send_email db env aid te subj body).2.1.processed_emails =
      db.processed_emails := by
  unfold send_email
  rcases get_email_account db aid with _ | acct
  · rfl
  · repeat' split
    all_goals simp

@[simp] lemma send_email_outreach (db : DB) (env : Env) (aid : ℕ)
    (te subj body : String) :
    (send_email db env aid te subj body).2.1.outreach_emails =
      db.outreach_emails := by
  unfold send_email
  rcases get_email_account db aid with _ | acct
  · rfl
  · repeat' split
    all_goals simp

/-- Evaluation of `send_email` for the account chosen by
`get_available_account`: the SMTP transaction is attempted and its outcome is
`env.smtp_ok`. -/
lemma send_email_eval (db : DB) (env : Env) (a : EmailAccount)
    (hacct : get_email_account db a.id = some a) (hact : a.is_active = true)
    (hlim : a.emails_sent_today < a.daily_limit) (te subj body : String) :
    send_email db env a.id te subj body =
      if env.smtp_ok then
        ((true, "Email sent successfully"), increment_email_sent db a.id,
         [.smtpSend te subj])
      else ((false, "Send error"), db, [.smtpSend te subj]) := by
  unfold send_email
  rw [hacct]
  simp [hact, Nat.not_le.mpr hlim]

lemma respond_processed (db4 : DB) (env : Env) (o : Outreach) (c : Campaign)
    (a : EmailAccount) (rb f : String) :
    (process_reply_respond db4 env o c a rb f).1.processed_emails =
      db4.processed_emails := by
  simp only [process_reply_respond, send_varied_response]
  repeat' split
  all_goals simp

/-- Every response branch of `process_reply_respond` attempts exactly one
SMTP send, and appends exactly one outbound thread entry when (and only
when) the transaction succeeds. -/
lemma respond_trace (db4 : DB) (env : Env) (o : Outreach) (c : Campaign)
    (a : EmailAccount) (rb f : String)
    (hacct : get_email_account db4 a.id = some a)
    (hact : a.is_active = true)
    (hlim : a.emails_sent_today < a.daily_limit) :
    numSends (process_reply_respond db4 env o c a rb f).2.1 = 1 ∧
    numOutboundAppends (process_reply_respond db4 env o c a rb f).2.1 =
      (if env.smtp_ok = true then 1 else 0) := by
  have keyU : ∀ (oid : ℕ) (u : OutreachUpdate) (te subj body : String),
      send_email (update_outreach db4 oid u) env a.id te subj body =
        if env.smtp_ok then
          ((true, "Email sent successfully"),
           increment_email_sent (update_outreach db4 oid u) a.id,
           [.smtpSend te subj])
        else ((false, "Send error"), update_outreach db4 oid u,
              [.smtpSend te subj]) := by
    intro oid u te subj body
    exact send_email_eval _ env a
      (by rw [get_email_account_congr a.id (update_outreach_accounts db4 oid u)]
          exact hacct) hact hlim te subj body
  have keyD : ∀ (te subj body : String),
      send_email db4 env a.id te subj body =
        if env.smtp_ok then
          ((true, "Email sent successfully"), increment_email_sent db4 a.id,
           [.smtpSend te subj])
        else ((false, "Send error"), db4, [.smtpSend te subj]) :=
    fun te subj body => send_email_eval db4 env a hacct hact hlim te subj body
  simp only [process_reply_respond, send_varied_response]
  rcases hsm : env.smtp_ok with _ | _
  all_goals (
    simp only [keyU, keyD, hsm]
    clear keyU keyD
    constructor
    all_goals (
      repeat' split
      all_goals simp_all [numSends, numOutboundAppends]))

/-! ## Claim C4 -/

/-- C4: the claim says every offer computed by `calculate_counter_offer`
satisfies `offer ≤ max_offer` in every action branch, matching the
function's own docstring ("Never exceed max_offer").  The code violates
this: in the counter branch the midpoint is capped at `max_offer` *before*
rounding to the nearest \$50, so rounding can push the offer above the
ceiling.  At `(current_offer, creator_ask, budget_min, max_offer, round) =
(0, 426, 425, 449, 1)` (a campaign with `budget_min = 425 ≤ max_offer =
449`) the function returns a counter at \$450 > \$449. -/
theorem C4_ceiling_code_bug :
    calculate_counter_offer 0 (some 426) 425 449 1 =
      { offer := 450, action := Action.counter } ∧
    (425 : ℚ) ≤ 449 ∧
    ¬ (calculate_counter_offer 0 (some 426) 425 449 1).offer ≤ 449 := by
  refine ⟨?_, by norm_num, ?_⟩ <;>
    norm_num [calculate_counter_offer, base_offer_at, counter_no_ask,
      offer_steps, roundTo50, pyRound]

/-! ## Claim C5 -/

/-- C5 counterexample: the claim says the offer is a multiple of 50 in every
action branch "including the branches that accept the creator's ask", but
the accept branches return `creator_ask` unrounded: with
`creator_ask = 490, max_offer = 500` (the spec's own Scenario 3) the result
accepts at \$490, which is not a multiple of \$50. -/
theorem C5_multiple_of_50_counterexample :
    (calculate_counter_offer 300 (some 490) 100 500 1).action =
      Action.accept ∧
    (calculate_counter_offer 300 (some 490) 100 500 1).offer = 490 ∧
    ¬ ∃ k : ℤ, (calculate_counter_offer 300 (some 490) 100 500 1).offer =
      50 * k := by
  have hv : calculate_counter_offer 300 (some 490) 100 500 1 =
      { offer := 490, action := Action.accept } := by
    norm_num [calculate_counter_offer, base_offer_at, counter_no_ask,
      offer_steps, roundTo50, pyRound]
  refine ⟨by rw [hv], by rw [hv], ?_⟩
  rintro ⟨k, hk⟩
  rw [hv] at hk
  have hk' : (490 : ℚ) = 50 * (k : ℚ) := hk
  have h2 : ((50 * k : ℤ) : ℚ) = 490 := by push_cast; linarith
  have h3 : (50 * k : ℤ) = 490 := by exact_mod_cast h2
  omega

/-- C5 (amended): the offer returned by `calculate_counter_offer` is a
multiple of \$50 whenever the returned action is `counter` (the two branches
that go through the \$50 rounding step); the accept branches return the
creator's ask unrounded and the `final_offer`/`decline` branches return
`max_offer` as-is. -/
theorem C5_counter_offers_multiple_of_50 (current_offer : ℚ)
    (creator_ask : Option ℚ) (budget_min max_offer : ℚ)
    (negotiation_round : ℕ)
    (h : (calculate_counter_offer current_offer creator_ask budget_min
      max_offer negotiation_round).action = Action.counter) :
    ∃ k : ℤ, (calculate_counter_offer current_offer creator_ask budget_min
      max_offer negotiation_round).offer = 50 * k := by
  have hno : ∀ b m : ℚ, (counter_no_ask b m).action = Action.counter →
      ∃ k : ℤ, (counter_no_ask b m).offer = 50 * k := by
    intro b m hbm
    unfold counter_no_ask at hbm ⊢
    split_ifs at hbm ⊢
    simpa using roundTo50_mul50 (min b m)
  rcases creator_ask with _ | a
  · simp only [calculate_counter_offer] at h ⊢
    exact hno _ _ h
  · simp only [calculate_counter_offer] at h ⊢
    by_cases h0 : a = 0
    · rw [if_pos h0] at h ⊢; exact hno _ _ h
    · rw [if_neg h0] at h ⊢
      by_cases h1 : a ≤ max_offer
      · rw [if_pos h1] at h ⊢
        by_cases h2 : a ≤ base_offer_at budget_min max_offer negotiation_round
        · rw [if_pos h2] at h; simp at h
        · rw [if_neg h2] at h ⊢
          by_cases h3 : a ≤ max_offer * 0.95
          · rw [if_pos h3] at h ⊢
            simpa using roundTo50_mul50 _
          · rw [if_neg h3] at h; simp at h
      · rw [if_neg h1] at h
        by_cases h4 : a ≤ max_offer * 1.3 <;> simp [h4] at h

/-- C5 witness: a concrete counter action whose offer the amended theorem
certifies as a multiple of \$50. -/
theorem C5_counter_offers_multiple_of_50_witness :
    (calculate_counter_offer 0 none 100 500 0).action = Action.counter ∧
    ∃ k : ℤ, (calculate_counter_offer 0 none 100 500 0).offer = 50 * k := by
  have ha : (calculate_counter_offer 0 none 100 500 0).action =
      Action.counter := by
    norm_num [calculate_counter_offer, base_offer_at, counter_no_ask,
      offer_steps, roundTo50, pyRound]
  exact ⟨ha, C5_counter_offers_multiple_of_50 0 none 100 500 0 ha⟩

/-! ## Claim C6 -/

/-- C6 counterexample: the claim says `current_offer` never decreases across
rounds under repeated `counter`/`final_offer` actions, for any fixed
campaign with `budget_min ≤ max_offer`.  With `budget_min = 500, max_offer =
520` the baseline schedule itself is not monotone (`budget_min * 1.30 = 650`
exceeds `max_offer * 0.90 = 468`): round 3 counters at \$500 and round 4 at
\$450, a strict decrease between two consecutive `counter` actions even when
`current_offer` is threaded from one round to the next. -/
theorem C6_monotonicity_counterexample :
    (500 : ℚ) ≤ 520 ∧
    (calculate_counter_offer 500 none 500 520 3).action = Action.counter ∧
    (calculate_counter_offer 500 none 500 520 3).offer = 500 ∧
    (calculate_counter_offer
      ((calculate_counter_offer 500 none 500 520 3).offer) none 500 520
      4).action = Action.counter ∧
    (calculate_counter_offer
      ((calculate_counter_offer 500 none 500 520 3).offer) none 500 520
      4).offer = 450 ∧
    (450 : ℚ) < 500 := by
  refine ⟨by norm_num, ?_, ?_, ?_, ?_, by norm_num⟩ <;>
    norm_num [calculate_counter_offer, base_offer_at, counter_no_ask,
      offer_steps, roundTo50, pyRound]

/-- C6 (amended): for a fixed campaign whose schedule is monotone
(`0 ≤ budget_min` and `budget_min * 1.30 ≤ max_offer * 0.90`), the offer
produced for a reply carrying no creator ask never decreases from one
negotiation round to the next, whatever `current_offer` values are threaded
through (the parameter is never read).  In general the claim fails, as the
counterexample shows. -/
theorem C6_no_ask_offers_monotone (budget_min max_offer c₁ c₂ : ℚ) (r : ℕ)
    (h0 : 0 ≤ budget_min) (h1 : budget_min * 1.30 ≤ max_offer * 0.90) :
    (calculate_counter_offer c₁ none budget_min max_offer r).offer ≤
    (calculate_counter_offer c₂ none budget_min max_offer (r + 1)).offer := by
  simp only [calculate_counter_offer, counter_no_ask_offer]
  exact min_le_min
    (roundTo50_mono (min_le_min (base_offer_at_mono _ _ h0 h1 r) le_rfl))
    le_rfl

/-- C6 witness: the amended monotonicity at a concrete campaign and round. -/
theorem C6_no_ask_offers_monotone_witness :
    (0 : ℚ) ≤ 100 ∧ (100 : ℚ) * 1.30 ≤ 500 * 0.90 ∧
    (calculate_counter_offer 0 none 100 500 0).offer ≤
    (calculate_counter_offer 0 none 100 500 1).offer :=
  ⟨by norm_num, by norm_num,
   C6_no_ask_offers_monotone 100 500 0 0 0 (by norm_num) (by norm_num)⟩

/-! ## Claim C7 -/

/-- C7: whenever the classifier oracle is unreachable (no client, or the
request raises) or its output fails schema parsing (no JSON object found),
`analyze_reply` returns the safe default judgment, in which `accepted`,
`rejected` and `requested_amount` are all absent — the engine keeps
negotiating instead of closing or rejecting; `analyze_reply` is a total
function, so no exception propagates out of the classification step. -/
theorem C7_classifier_safe_default (loads : String → Option Analysis)
    (oc : OracleOutcome)
    (h : oc = OracleOutcome.noClient ∨ oc = OracleOutcome.raisesExn ∨
      ∃ t, oc = OracleOutcome.responds t ∧ find_json_match t = none) :
    analyze_reply loads oc = default_analysis ∧
    default_analysis.accepted = none ∧
    default_analysis.rejected = none ∧
    default_analysis.requested_amount = none := by
  refine ⟨?_, rfl, rfl, rfl⟩
  rcases h with rfl | rfl | ⟨t, rfl, ht⟩
  · rfl
  · rfl
  · simp [analyze_reply, ht]

/-- C7 witness: the unreachable-oracle case at a concrete deserializer. -/
theorem C7_classifier_safe_default_witness :
    analyze_reply (fun _ => none) OracleOutcome.noClient = default_analysis ∧
    default_analysis.accepted = none ∧
    default_analysis.rejected = none ∧
    default_analysis.requested_amount = none :=
  C7_classifier_safe_default (fun _ => none) OracleOutcome.noClient
    (Or.inl rfl)

/-! ## Claim C10 -/

/-- C10: a fetched message whose extracted plain-text body (after stripping
quoted-reply content) is empty or shorter than 5 characters is skipped by
the per-message loop of `check_inbox_for_replies` before the duplicate
check: it is not marked processed and the pass has no side effect at all on
the store, so the same message is re-examined on every later pass. -/
theorem C10_short_bodies_skipped (db : DB) (env : Env) (msg : InboundMsg)
    (h : extract_email_body msg.raw_body = "" ∨
      (pyStrip (extract_email_body msg.raw_body)).length < 5) :
    check_message db env msg = (db, [], CheckOutcome.skippedEmpty) := by
  simp only [check_message]
  rw [if_pos h]

/-- C10 witness: a two-character reply body on an empty store. -/
theorem C10_short_bodies_skipped_witness :
    ((extract_email_body "hi" = "" ∨
        (pyStrip (extract_email_body "hi")).length < 5) ∧
      check_message ⟨[], [], [], [], [], []⟩
        ⟨0, true, OracleOutcome.noClient, fun _ => none, ""⟩
        ⟨"mid-1", "a@b.c", "Hello", "hi"⟩ =
        (⟨[], [], [], [], [], []⟩, [], CheckOutcome.skippedEmpty)) :=
  ⟨Or.inr (by decide),
   C10_short_bodies_skipped ⟨[], [], [], [], [], []⟩
     ⟨0, true, OracleOutcome.noClient, fun _ => none, ""⟩
     ⟨"mid-1", "a@b.c", "Hello", "hi"⟩ (Or.inr (by decide))⟩

/-! ## Claim C1 -/

/-- C1: processing an inbound message id `m` twice produces exactly one
outbound send and one outbound thread append: on the first pass the very
first side effect is `mark_email_processed m` (so the mark precedes the
send), exactly one SMTP send is attempted and exactly one outbound message
is appended to the thread; a subsequent reconciliation pass that sees `m`
again finds `is_email_processed` true and performs no send, no thread
append and no outreach update — it returns the store unchanged with an
empty effect trace. -/
theorem C1_duplicate_guard_idempotent
    (db : DB) (env env' : Env) (msg : InboundMsg) (o : Outreach)
    (c : Campaign) (a : EmailAccount)
    (hbody : 5 ≤ (pyStrip (extract_email_body msg.raw_body)).length)
    (hmid : msg.message_id ≠ "")
    (hdup : is_email_processed db (some msg.message_id) none = false)
    (hmatch : find_matching_outreach db msg.from_email msg.subject = some o)
    (hterm : is_terminal_state o = false)
    (hcamp : get_campaign db o.campaign_id = some c)
    (havail : get_available_account db = some a)
    (hacct : get_email_account db a.id = some a)
    (hsm : env.smtp_ok = true) :
    numSends (check_message db env msg).2.1 = 1 ∧
    numOutboundAppends (check_message db env msg).2.1 = 1 ∧
    (check_message db env msg).2.1.head? =
      some (Effect.markProcessed msg.message_id) ∧
    check_message (check_message db env msg).1 env' msg =
      ((check_message db env msg).1, [], CheckOutcome.skippedDuplicate) := by
  obtain ⟨hact, hlim⟩ := get_available_account_spec havail
  have hcond : ¬ (extract_email_body msg.raw_body = "" ∨
      (pyStrip (extract_email_body msg.raw_body)).length < 5) := by
    rintro (he | hl)
    · rw [he] at hbody; simp [pyStrip, stripChars] at hbody
    · omega
  have hacc4 : get_available_account
      (process_reply_record db env o (extract_email_body msg.raw_body)
        msg.from_email msg.message_id).1 = some a := by
    rw [get_available_account_congr (record_accounts db env o _ _ _)]
    exact havail
  have hacct4 : get_email_account
      (process_reply_record db env o (extract_email_body msg.raw_body)
        msg.from_email msg.message_id).1 a.id = some a := by
    rw [get_email_account_congr a.id (record_accounts db env o _ _ _)]
    exact hacct
  have hpr : process_reply db env o (extract_email_body msg.raw_body)
      msg.from_email msg.message_id =
      ((process_reply_respond
          (process_reply_record db env o (extract_email_body msg.raw_body)
            msg.from_email msg.message_id).1 env o c a
          (extract_email_body msg.raw_body) msg.from_email).1,
       (process_reply_record db env o (extract_email_body msg.raw_body)
          msg.from_email msg.message_id).2 ++
         (process_reply_respond
            (process_reply_record db env o (extract_email_body msg.raw_body)
              msg.from_email msg.message_id).1 env o c a
            (extract_email_body msg.raw_body) msg.from_email).2.1,
       (process_reply_respond
          (process_reply_record db env o (extract_email_body msg.raw_body)
            msg.from_email msg.message_id).1 env o c a
          (extract_email_body msg.raw_body) msg.from_email).2.2) := by
    simp only [process_reply]
    rw [if_neg (by simp [hterm]), hcamp]
    simp only [hacc4]
  have hcm : check_message db env msg =
      ((process_reply db env o (extract_email_body msg.raw_body)
          msg.from_email msg.message_id).1,
       (process_reply db env o (extract_email_body msg.raw_body)
          msg.from_email msg.message_id).2.1,
       CheckOutcome.processed
         (process_reply db env o (extract_email_body msg.raw_body)
            msg.from_email msg.message_id).2.2) := by
    simp only [check_message]
    rw [if_neg hcond, if_neg (by simp [hdup])]
    simp only [hmatch]
    rw [if_neg (by simp [hterm])]
  have htr := respond_trace
    (process_reply_record db env o (extract_email_body msg.raw_body)
      msg.from_email msg.message_id).1 env o c a
    (extract_email_body msg.raw_body) msg.from_email hacct4 hact hlim
  have hmarked : is_email_processed (check_message db env msg).1
      (some msg.message_id) none = true := by
    rw [hcm]
    simp only [hpr]
    have hpp : (process_reply_respond
        (process_reply_record db env o (extract_email_body msg.raw_body)
          msg.from_email msg.message_id).1 env o c a
        (extract_email_body msg.raw_body) msg.from_email).1.processed_emails =
        (mark_email_processed db msg.message_id msg.from_email o.subject
          (get_body_hash
            (extract_email_body msg.raw_body))).processed_emails := by
      rw [respond_processed, record_processed]
    rw [is_email_processed_congr (some msg.message_id) none hpp]
    exact is_email_processed_mark db msg.message_id msg.from_email o.subject
      (get_body_hash (extract_email_body msg.raw_body)) hmid
  refine ⟨?_, ?_, ?_, ?_⟩
  · rw [hcm]
    simp only [hpr, numSends_append, record_numSends, htr.1]
  · rw [hcm]
    simp only [hpr, numOutboundAppends_append, record_numOutboundAppends,
      htr.2, hsm, if_pos]
  · rw [hcm]
    simp only [hpr]
    rcases record_trace_cases db env o (extract_email_body msg.raw_body)
      msg.from_email msg.message_id with h | ⟨cid, h⟩ <;> rw [h] <;> rfl
  · conv_lhs => rw [check_message]
    rw [if_neg hcond, if_pos (by rw [hmarked])]

/-- C1 witness: the guard at a concrete store, reply and environment. -/
theorem C1_duplicate_guard_idempotent_witness :
    numSends (check_message dbA (envRej true) msgA).2.1 = 1 ∧
    numOutboundAppends (check_message dbA (envRej true) msgA).2.1 = 1 ∧
    (check_message dbA (envRej true) msgA).2.1.head? =
      some (Effect.markProcessed "mid-a") ∧
    check_message (check_message dbA (envRej true) msgA).1 (envRej true)
      msgA =
      ((check_message dbA (envRej true) msgA).1, [],
       CheckOutcome.skippedDuplicate) :=
  C1_duplicate_guard_idempotent dbA (envRej true) (envRej true) msgA outA
    campA acctA (by decide) (by decide) (by decide) (by decide) (by decide)
    (by decide) (by decide) (by decide) rfl

/-! ## Claim C2 -/

/-- C2: for an outreach whose `negotiation_stage` is terminal (`deal_closed`,
`rejected`, `rejected_over_budget`), processing any further inbound reply —
directly through `process_reply`, or through the terminal guard of
`check_inbox_for_replies` — produces zero outbound sends and leaves the
outreach table (hence `negotiation_stage`) unchanged: the message is only
marked processed and the reply is skipped. -/
theorem C2_terminal_absorption (db : DB) (env : Env) (o : Outreach)
    (rb f m : String)
    (hterm : o.negotiation_stage = "deal_closed" ∨
      o.negotiation_stage = "rejected" ∨
      o.negotiation_stage = "rejected_over_budget") :
    process_reply db env o rb f m =
      (mark_email_processed db m f o.subject (get_body_hash rb),
       [Effect.markProcessed m],
       { success := true, status := some "skipped_terminal" }) ∧
    numSends (process_reply db env o rb f m).2.1 = 0 ∧
    (process_reply db env o rb f m).1.outreach_emails = db.outreach_emails ∧
    (∀ msg : InboundMsg,
      ¬ (extract_email_body msg.raw_body = "" ∨
         (pyStrip (extract_email_body msg.raw_body)).length < 5) →
      is_email_processed db (some msg.message_id) none = false →
      find_matching_outreach db msg.from_email msg.subject = some o →
      check_message db env msg =
        (mark_email_processed db msg.message_id msg.from_email msg.subject
           (get_body_hash (extract_email_body msg.raw_body)),
         [Effect.markProcessed msg.message_id],
         CheckOutcome.skippedTerminal) ∧
      numSends (check_message db env msg).2.1 = 0 ∧
      (check_message db env msg).1.outreach_emails = db.outreach_emails) := by
  have ht : is_terminal_state o = true := by
    unfold is_terminal_state TERMINAL_STATES
    rcases hterm with h | h | h <;> simp [h]
  have hpr : process_reply db env o rb f m =
      (mark_email_processed db m f o.subject (get_body_hash rb),
       [Effect.markProcessed m],
       { success := true, status := some "skipped_terminal" }) := by
    simp only [process_reply]
    rw [if_pos (by rw [ht])]
  refine ⟨hpr, by rw [hpr]; simp [numSends], by rw [hpr]; simp, ?_⟩
  intro msg hc hdup hmatch
  have hck : check_message db env msg =
      (mark_email_processed db msg.message_id msg.from_email msg.subject
         (get_body_hash (extract_email_body msg.raw_body)),
       [Effect.markProcessed msg.message_id],
       CheckOutcome.skippedTerminal) := by
    simp only [check_message]
    rw [if_neg hc, if_neg (by simp [hdup])]
    simp only [hmatch]
    rw [if_pos (by rw [ht])]
  exact ⟨hck, by rw [hck]; simp [numSends], by rw [hck]; simp⟩

/-- C2 witness: a closed deal absorbing a further reply, both directly and
through the inbox guard. -/
theorem C2_terminal_absorption_witness :
    process_reply dbClosed (envRej true) outClosed "not interested"
        "creator@x.com" "mid-a" =
      (mark_email_processed dbClosed "mid-a" "creator@x.com"
         outClosed.subject (get_body_hash "not interested"),
       [Effect.markProcessed "mid-a"],
       { success := true, status := some "skipped_terminal" }) ∧
    numSends (process_reply dbClosed (envRej true) outClosed "not interested"
        "creator@x.com" "mid-a").2.1 = 0 ∧
    (process_reply dbClosed (envRej true) outClosed "not interested"
        "creator@x.com" "mid-a").1.outreach_emails =
      dbClosed.outreach_emails ∧
    (∀ msg : InboundMsg,
      ¬ (extract_email_body msg.raw_body = "" ∨
         (pyStrip (extract_email_body msg.raw_body)).length < 5) →
      is_email_processed dbClosed (some msg.message_id) none = false →
      find_matching_outreach dbClosed msg.from_email msg.subject =
        some outClosed →
      check_message dbClosed (envRej true) msg =
        (mark_email_processed dbClosed msg.message_id msg.from_email
           msg.subject (get_body_hash (extract_email_body msg.raw_body)),
         [Effect.markProcessed msg.message_id],
         CheckOutcome.skippedTerminal) ∧
      numSends (check_message dbClosed (envRej true) msg).2.1 = 0 ∧
      (check_message dbClosed (envRej true) msg).1.outreach_emails =
        dbClosed.outreach_emails) :=
  C2_terminal_absorption dbClosed (envRej true) outClosed "not interested"
    "creator@x.com" "mid-a" (Or.inl (by decide))

/-! ## Claim C9 -/

/-- C9: when no email account is under its daily limit, `process_reply` on a
non-terminal outreach returns the distinct failure `"No email account
available"` and attempts no send — but only after the inbound message was
already marked processed, logged to the thread, and the outreach flagged
`replied`; consequently a later reconciliation pass that sees the same
message id skips it without effects, so the reply is consumed and never
answered. -/
theorem C9_no_capacity_consumes_reply (db : DB) (env : Env) (o : Outreach)
    (c : Campaign) (rb f m : String)
    (hterm : is_terminal_state o = false)
    (hcamp : get_campaign db o.campaign_id = some c)
    (hnoacc : get_available_account db = none)
    (hfind : db.outreach_emails.find? (fun r => r.id = o.id) = some o)
    (hmid : m ≠ "") :
    (process_reply db env o rb f m).2.2 =
      { success := false, error := some "No email account available" } ∧
    numSends (process_reply db env o rb f m).2.1 = 0 ∧
    is_email_processed (process_reply db env o rb f m).1 (some m) none =
      true ∧
    status_of (process_reply db env o rb f m).1 o.id = some "replied" ∧
    (⟨o.id, "inbound", "Re: " ++ o.subject, rb, env.now⟩ : ThreadEntry) ∈
      (process_reply db env o rb f m).1.email_threads ∧
    (∀ (env' : Env) (msg : InboundMsg),
      msg.message_id = m →
      ¬ (extract_email_body msg.raw_body = "" ∨
         (pyStrip (extract_email_body msg.raw_body)).length < 5) →
      check_message (process_reply db env o rb f m).1 env' msg =
        ((process_reply db env o rb f m).1, [],
         CheckOutcome.skippedDuplicate)) := by
  have hnoacc4 : get_available_account
      (process_reply_record db env o rb f m).1 = none := by
    rw [get_available_account_congr (record_accounts db env o rb f m)]
    exact hnoacc
  have hpr : process_reply db env o rb f m =
      ((process_reply_record db env o rb f m).1,
       (process_reply_record db env o rb f m).2,
       { success := false, error := some "No email account available" }) := by
    simp only [process_reply]
    rw [if_neg (by simp [hterm]), hcamp]
    simp only [hnoacc4]
  have hmarked : is_email_processed (process_reply db env o rb f m).1
      (some m) none = true := by
    rw [hpr]
    rw [is_email_processed_congr (some m) none (record_processed db env o rb f m)]
    exact is_email_processed_mark db m f o.subject (get_body_hash rb) hmid
  refine ⟨by rw [hpr], by rw [hpr]; exact record_numSends db env o rb f m,
    hmarked, ?_, ?_, ?_⟩
  · rw [hpr]
    unfold status_of
    show ((process_reply_record db env o rb f m).1.outreach_emails.find?
      (fun r => r.id = o.id)).map (fun r => r.status) = some "replied"
    rw [record_outreach_emails]
    unfold update_outreach
    rw [find?_update_list db.outreach_emails o.id _ o hfind]
    rfl
  · rw [hpr]
    show _ ∈ (process_reply_record db env o rb f m).1.email_threads
    rw [record_threads]
    exact List.mem_append_right _ (List.mem_singleton.mpr rfl)
  · intro env' msg hmm hc
    simp only [check_message]
    rw [if_neg hc, if_pos (by rw [hmm, hmarked])]

/-- C9 witness: the no-capacity path at a concrete store whose only account
is at its daily limit. -/
theorem C9_no_capacity_consumes_reply_witness :
    (process_reply dbNoCap (envRej true) outA "my rate is 600"
        "creator@x.com" "mid-a").2.2 =
      { success := false, error := some "No email account available" } ∧
    numSends (process_reply dbNoCap (envRej true) outA "my rate is 600"
        "creator@x.com" "mid-a").2.1 = 0 ∧
    is_email_processed (process_reply dbNoCap (envRej true) outA
        "my rate is 600" "creator@x.com" "mid-a").1 (some "mid-a") none =
      true ∧
    status_of (process_reply dbNoCap (envRej true) outA "my rate is 600"
        "creator@x.com" "mid-a").1 outA.id = some "replied" ∧
    (⟨outA.id, "inbound", "Re: " ++ outA.subject, "my rate is 600",
        (envRej true).now⟩ : ThreadEntry) ∈
      (process_reply dbNoCap (envRej true) outA "my rate is 600"
        "creator@x.com" "mid-a").1.email_threads ∧
    (∀ (env' : Env) (msg : InboundMsg),
      msg.message_id = "mid-a" →
      ¬ (extract_email_body msg.raw_body = "" ∨
         (pyStrip (extract_email_body msg.raw_body)).length < 5) →
      check_message (process_reply dbNoCap (envRej true) outA
          "my rate is 600" "creator@x.com" "mid-a").1 env' msg =
        ((process_reply dbNoCap (envRej true) outA "my rate is 600"
            "creator@x.com" "mid-a").1, [],
         CheckOutcome.skippedDuplicate)) :=
  C9_no_capacity_consumes_reply dbNoCap (envRej true) outA campA
    "my rate is 600" "creator@x.com" "mid-a" (by decide) (by decide)
    (by decide) (by decide) (by decide)

/-! ## Claim C3 -/

/-- Splitting `process_reply` on the non-terminal path with a campaign and an
available account. -/
lemma process_reply_split (db : DB) (env : Env) (o : Outreach) (c : Campaign)
    (a : EmailAccount) (rb f m : String)
    (hterm : is_terminal_state o = false)
    (hcamp : get_campaign db o.campaign_id = some c)
    (havail : get_available_account db = some a) :
    process_reply db env o rb f m =
      ((process_reply_respond (process_reply_record db env o rb f m).1 env o
          c a rb f).1,
       (process_reply_record db env o rb f m).2 ++
         (process_reply_respond (process_reply_record db env o rb f m).1 env
            o c a rb f).2.1,
       (process_reply_respond (process_reply_record db env o rb f m).1 env o
          c a rb f).2.2) := by
  have hacc4 : get_available_account
      (process_reply_record db env o rb f m).1 = some a := by
    rw [get_available_account_congr (record_accounts db env o rb f m)]
    exact havail
  simp only [process_reply]
  rw [if_neg (by simp [hterm]), hcamp]
  simp only [hacc4]

/-- When the SMTP transaction fails, every branch of
`process_reply_respond` leaves the outreach row either untouched or with
only its `negotiation_stage` rewritten (the stage was advanced *before* the
send); the plain counter branch leaves the row untouched. -/
lemma respond_fail_row (db4 : DB) (env : Env) (o : Outreach) (c : Campaign)
    (a : EmailAccount) (rb f : String) (ob : Outreach)
    (hacct : get_email_account db4 a.id = some a)
    (hact : a.is_active = true)
    (hlim : a.emails_sent_today < a.daily_limit)
    (hsm : env.smtp_ok = false)
    (hfind4 : db4.outreach_emails.find? (fun r => r.id = o.id) = some ob) :
    ((process_reply_respond db4 env o c a rb f).1.outreach_emails.find?
        (fun r => r.id = o.id) = some ob ∨
      ∃ st : String,
        (process_reply_respond db4 env o c a rb f).1.outreach_emails.find?
          (fun r => r.id = o.id) =
            some (applyUpdate ob { negotiation_stage := some st })) ∧
    (optTruthy (analyze_reply env.loads env.oracle).rejected = false →
     optTruthy (analyze_reply env.loads env.oracle).accepted = false →
     (calculate_counter_offer
        (if o.current_offer = 0 then c.budget_min else o.current_offer)
        (analyze_reply env.loads env.oracle).requested_amount
        c.budget_min c.max_offer (o.negotiation_rounds + 1)).action =
       Action.counter →
     (process_reply_respond db4 env o c a rb f).1.outreach_emails.find?
        (fun r => r.id = o.id) = some ob) := by
  have keyU : ∀ (oid : ℕ) (u : OutreachUpdate) (te subj body : String),
      send_email (update_outreach db4 oid u) env a.id te subj body =
        if env.smtp_ok then
          ((true, "Email sent successfully"),
           increment_email_sent (update_outreach db4 oid u) a.id,
           [.smtpSend te subj])
        else ((false, "Send error"), update_outreach db4 oid u,
              [.smtpSend te subj]) := by
    intro oid u te subj body
    exact send_email_eval _ env a
      (by rw [get_email_account_congr a.id (update_outreach_accounts db4 oid u)]
          exact hacct) hact hlim te subj body
  have keyD : ∀ (te subj body : String),
      send_email db4 env a.id te subj body =
        if env.smtp_ok then
          ((true, "Email sent successfully"), increment_email_sent db4 a.id,
           [.smtpSend te subj])
        else ((false, "Send error"), db4, [.smtpSend te subj]) :=
    fun te subj body => send_email_eval db4 env a hacct hact hlim te subj body
  simp only [process_reply_respond, send_varied_response]
  simp only [keyU, keyD, hsm]
  clear keyU keyD
  constructor
  · repeat' split
    all_goals
      first
        | exact Or.inl hfind4
        | exact Or.inr ⟨_, by
            simp only [update_outreach]
            exact find?_update_list _ _ _ _ hfind4⟩
        | simp_all
  · intro h1 h2 h3
    rw [if_neg (by simp [h1]), if_neg (by simp [h2])]
    simp only [h3]
    simp only [Bool.false_eq_true, if_false]
    exact hfind4

/-- C3 counterexample: the claim says a failed outbound send never advances
`negotiation_stage`, in every branch.  In the rejection branch the stage is
written *before* the send is attempted: at a concrete store whose outreach
is in stage `negotiating`, a classified rejection whose send fails (one SMTP
attempt, zero outbound thread appends) still leaves the record in stage
`rejected`. -/
theorem C3_failed_send_counterexample :
    outA.negotiation_stage = "negotiating" ∧
    (envRej false).smtp_ok = false ∧
    numSends (process_reply dbA (envRej false) outA "not interested"
        "creator@x.com" "mid-a").2.1 = 1 ∧
    numOutboundAppends (process_reply dbA (envRej false) outA
        "not interested" "creator@x.com" "mid-a").2.1 = 0 ∧
    stage_of (process_reply dbA (envRej false) outA "not interested"
        "creator@x.com" "mid-a").1 outA.id = some "rejected" := by
  refine ⟨rfl, rfl, ?_, ?_, ?_⟩ <;> decide

/-- C3 (amended): on a failed send `process_reply` never advances
`current_offer` or `negotiation_rounds`, and in the plain counter branch it
leaves `negotiation_stage` unchanged as the claim says; in the
rejected/accepted/accept/decline/final-offer branches, however, the stage is
advanced to the branch's target stage before the send is attempted, so a
failed send leaves it advanced (the counterexample exhibits this). -/
theorem C3_failed_send_no_advance (db : DB) (env : Env) (o : Outreach)
    (c : Campaign) (a : EmailAccount) (rb f m : String)
    (hterm : is_terminal_state o = false)
    (hcamp : get_campaign db o.campaign_id = some c)
    (hfind : db.outreach_emails.find? (fun r => r.id = o.id) = some o)
    (havail : get_available_account db = some a)
    (hacct : get_email_account db a.id = some a)
    (hsm : env.smtp_ok = false) :
    offer_of (process_reply db env o rb f m).1 o.id = some o.current_offer ∧
    rounds_of (process_reply db env o rb f m).1 o.id =
      some o.negotiation_rounds ∧
    (optTruthy (analyze_reply env.loads env.oracle).rejected = false →
     optTruthy (analyze_reply env.loads env.oracle).accepted = false →
     (calculate_counter_offer
        (if o.current_offer = 0 then c.budget_min else o.current_offer)
        (analyze_reply env.loads env.oracle).requested_amount
        c.budget_min c.max_offer (o.negotiation_rounds + 1)).action =
       Action.counter →
     stage_of (process_reply db env o rb f m).1 o.id =
       some o.negotiation_stage) := by
  obtain ⟨hact, hlim⟩ := get_available_account_spec havail
  have hacct4 : get_email_account (process_reply_record db env o rb f m).1
      a.id = some a := by
    rw [get_email_account_congr a.id (record_accounts db env o rb f m)]
    exact hacct
  have hfind4 : (process_reply_record db env o rb f m).1.outreach_emails.find?
      (fun r => r.id = o.id) =
      some (applyUpdate o
        { status := some "replied", reply_content := some rb,
          last_inbound_at := some env.now }) := by
    rw [record_outreach_emails]
    simp only [update_outreach]
    exact find?_update_list _ _ _ _ hfind
  have hrow := respond_fail_row (process_reply_record db env o rb f m).1 env
    o c a rb f _ hacct4 hact hlim hsm hfind4
  have hpr := process_reply_split db env o c a rb f m hterm hcamp havail
  refine ⟨?_, ?_, ?_⟩
  · rw [hpr]
    unfold offer_of
    rcases hrow.1 with hf | ⟨st, hf⟩ <;> rw [hf] <;> rfl
  · rw [hpr]
    unfold rounds_of
    rcases hrow.1 with hf | ⟨st, hf⟩ <;> rw [hf] <;> rfl
  · intro h1 h2 h3
    rw [hpr]
    unfold stage_of
    rw [hrow.2 h1 h2 h3]
    rfl

/-- C3 witness: the amended statement at the concrete rejection-with-failed-
send store. -/
theorem C3_failed_send_no_advance_witness :
    offer_of (process_reply dbA (envRej false) outA "not interested"
        "creator@x.com" "mid-a").1 outA.id = some outA.current_offer ∧
    rounds_of (process_reply dbA (envRej false) outA "not interested"
        "creator@x.com" "mid-a").1 outA.id =
      some outA.negotiation_rounds ∧
    (optTruthy (analyze_reply (envRej false).loads
        (envRej false).oracle).rejected = false →
     optTruthy (analyze_reply (envRej false).loads
        (envRej false).oracle).accepted = false →
     (calculate_counter_offer
        (if outA.current_offer = 0 then campA.budget_min
         else outA.current_offer)
        (analyze_reply (envRej false).loads
          (envRej false).oracle).requested_amount
        campA.budget_min campA.max_offer (outA.negotiation_rounds + 1)).action =
       Action.counter →
     stage_of (process_reply dbA (envRej false) outA "not interested"
        "creator@x.com" "mid-a").1 outA.id =
       some outA.negotiation_stage) :=
  C3_failed_send_no_advance dbA (envRej false) outA campA acctA
    "not interested" "creator@x.com" "mid-a" (by decide) (by decide)
    (by decide) (by decide) (by decide) rfl

/-! ## Claim C8 -/

/-- The eligibility test of `should_send_followup`, spelled out. -/
lemma should_send_followup_iff (db : DB) (o : Outreach) (now : ℚ) :
    should_send_followup db o now = true ↔
      (o.status ≠ "replied" ∧ o.last_inbound_at = none ∧
       o.followup_count < 2 ∧
       ∃ t, last_outbound db o.id = some t ∧
         2 ≤ (now - t) / 3600 ∧ (now - t) / 3600 ≤ 6) := by
  unfold should_send_followup
  split_ifs with h1 h2 h3
  · simp only [Bool.false_eq_true, false_iff]
    rintro ⟨hs, -, -, -⟩; exact hs h1
  · simp only [Bool.false_eq_true, false_iff]
    rintro ⟨-, hn, -, -⟩; rw [hn] at h2; simp at h2
  · simp only [Bool.false_eq_true, false_iff]
    rintro ⟨-, -, hc, -⟩; omega
  · cases hlo : last_outbound db o.id with
    | none =>
      simp only [Bool.false_eq_true, false_iff]
      rintro ⟨-, -, -, t, ht, -⟩
      cases ht
    | some t =>
      rw [decide_eq_true_eq]
      constructor
      · rintro ⟨ha, hb⟩
        refine ⟨h1, ?_, by omega, t, rfl, ha, hb⟩
        rcases ho : o.last_inbound_at with _ | v
        · rfl
        · rw [ho] at h2; simp at h2
      · rintro ⟨-, -, -, t', ht', ha, hb⟩
        cases ht'
        exact ⟨ha, hb⟩

/-- Evaluation of `send_followup` when an account is available and the SMTP
transaction succeeds. -/
lemma send_followup_eval (db : DB) (env : Env) (o : Outreach)
    (a : EmailAccount)
    (havail : get_available_account db = some a)
    (hacct : get_email_account db a.id = some a)
    (hsm : env.smtp_ok = true) :
    send_followup db env o =
      (update_outreach
         (add_email_thread (increment_email_sent db a.id) env.now o.id
           "outbound" ("Re: " ++ o.subject) env.template_body) o.id
         { followup_count := some (o.followup_count + 1),
           last_followup_at := some env.now },
       [.smtpSend o.recipient_email ("Re: " ++ o.subject),
        .threadAppend o.id "outbound", .outreachUpdate o.id],
       { success := true,
         followup_number := some (o.followup_count + 1) }) := by
  obtain ⟨hact, hlim⟩ := get_available_account_spec havail
  simp only [send_followup]
  rw [havail]
  simp only [send_email_eval db env a hacct hact hlim, hsm, if_true]
  rfl

/-- C8 counterexample: the claim lists status `'sent'`, no inbound ever,
fewer than two follow-ups, an existing last outbound message and an elapsed
time in `[2, 6]` hours as *equivalent* to the nudge firing.  A record in a
terminal stage (here `rejected`) satisfies every listed condition, yet the
follow-up pass of `run_auto_negotiator` skips it (no send, no store change),
because the runner additionally requires a non-terminal stage. -/
theorem C8_followup_counterexample :
    outFU.status = "sent" ∧
    outFU.last_inbound_at = none ∧
    outFU.followup_count < 2 ∧
    last_outbound dbFU outFU.id = some 0 ∧
    (2 : ℚ) ≤ (envFU.now - 0) / 3600 ∧ (envFU.now - 0) / 3600 ≤ 6 ∧
    should_send_followup dbFU outFU envFU.now = true ∧
    run_followup_step dbFU envFU outFU = (dbFU, [], false) := by
  refine ⟨rfl, rfl, by decide, by decide, by norm_num [envFU],
    by norm_num [envFU], ?_, by decide⟩
  rw [should_send_followup_iff]
  refine ⟨by decide, rfl, by decide, 0, by decide, ?_, ?_⟩ <;>
    norm_num [envFU]

/-- C8 (amended): with delivery capacity (an available account and a
successful SMTP transaction), the follow-up pass fires for an outreach
record if and only if its stage is non-terminal AND its status is `'sent'`,
no inbound reply was ever recorded, `followup_count < 2`, a last outbound
thread entry exists, and the hours elapsed since it lie in `[2, 6]`; on
firing, `followup_count` is incremented by one and `last_followup_at` is
stamped with the current time. -/
theorem C8_followup_fire_iff (db : DB) (env : Env) (o : Outreach)
    (a : EmailAccount)
    (havail : get_available_account db = some a)
    (hacct : get_email_account db a.id = some a)
    (hsm : env.smtp_ok = true)
    (hfind : db.outreach_emails.find? (fun r => r.id = o.id) = some o) :
    ((run_followup_step db env o).2.2 = true ↔
      (is_terminal_state o = false ∧ o.status = "sent" ∧
       o.last_inbound_at = none ∧ o.followup_count < 2 ∧
       ∃ t, last_outbound db o.id = some t ∧
         2 ≤ (env.now - t) / 3600 ∧ (env.now - t) / 3600 ≤ 6)) ∧
    ((run_followup_step db env o).2.2 = true →
      followups_of (run_followup_step db env o).1 o.id =
        some (o.followup_count + 1) ∧
      last_followup_of (run_followup_step db env o).1 o.id =
        some (some env.now)) := by
  have hsend := send_followup_eval db env o a havail hacct hsm
  simp only [run_followup_step]
  split_ifs with ht hs hshould
  · refine ⟨?_, by simp⟩
    simp only [Bool.false_eq_true, false_iff]
    rintro ⟨hterm, -⟩
    rw [ht] at hterm
    cases hterm
  · refine ⟨?_, by simp⟩
    simp only [Bool.false_eq_true, false_iff]
    rintro ⟨-, hst, -⟩
    exact hs hst
  · rw [hsend]
    have hterm' : is_terminal_state o = false := by
      cases hb2 : is_terminal_state o
      · rfl
      · exact absurd hb2 ht
    have hst : o.status = "sent" := by
      by_contra hne
      exact hs hne
    obtain ⟨-, hn, hc, t, hlo, ha, hb⟩ :=
      (should_send_followup_iff db o env.now).mp hshould
    have hfind' : (add_email_thread (increment_email_sent db a.id) env.now
        o.id "outbound" ("Re: " ++ o.subject)
        env.template_body).outreach_emails.find?
          (fun r => r.id = o.id) = some o := by
      simpa using hfind
    refine ⟨⟨fun _ => ⟨hterm', hst, hn, hc, t, hlo, ha, hb⟩, fun _ => rfl⟩,
      fun _ => ⟨?_, ?_⟩⟩
    · show followups_of
        (update_outreach
          (add_email_thread (increment_email_sent db a.id) env.now o.id
            "outbound" ("Re: " ++ o.subject) env.template_body) o.id
          { followup_count := some (o.followup_count + 1),
            last_followup_at := some env.now }) o.id =
        some (o.followup_count + 1)
      unfold followups_of
      simp only [update_outreach]
      rw [find?_update_list _ _ _ _ hfind']
      rfl
    · show last_followup_of
        (update_outreach
          (add_email_thread (increment_email_sent db a.id) env.now o.id
            "outbound" ("Re: " ++ o.subject) env.template_body) o.id
          { followup_count := some (o.followup_count + 1),
            last_followup_at := some env.now }) o.id =
        some (some env.now)
      unfold last_followup_of
      simp only [update_outreach]
      rw [find?_update_list _ _ _ _ hfind']
      rfl
  · refine ⟨?_, by simp⟩
    simp only [Bool.false_eq_true, false_iff]
    rintro ⟨-, hst, hn, hc, t, hlo, ha, hb⟩
    exact hshould ((should_send_followup_iff db o env.now).mpr
      ⟨by rw [hst]; decide, hn, hc, t, hlo, ha, hb⟩)

/-- C8 witness: the amended equivalence at an eligible, non-terminal
record. -/
theorem C8_followup_fire_iff_witness :
    ((run_followup_step dbEl envFU outEl).2.2 = true ↔
      (is_terminal_state outEl = false ∧ outEl.status = "sent" ∧
       outEl.last_inbound_at = none ∧ outEl.followup_count < 2 ∧
       ∃ t, last_outbound dbEl outEl.id = some t ∧
         2 ≤ (envFU.now - t) / 3600 ∧ (envFU.now - t) / 3600 ≤ 6)) ∧
    ((run_followup_step dbEl envFU outEl).2.2 = true →
      followups_of (run_followup_step dbEl envFU outEl).1 outEl.id =
        some (outEl.followup_count + 1) ∧
      last_followup_of (run_followup_step dbEl envFU outEl).1 outEl.id =
        some (some envFU.now)) :=
  C8_followup_fire_iff dbEl envFU outEl acctA (by decide) (by decide) rfl
    (by decide)

end AutoNegotiator
